import Mathlib

/-!
Shallow embedding of the MissionSquad/mcp-github server (TypeScript sources
under src/) for checking its natural-language specification.

The embedding covers: the JSON argument/response values, the zod input
schemas as field-list validators, the HTTP invoker (common/utils.ts is not
part of the provided sources, so it is modelled from the specification,
section 4.3), the error classifier (common/errors.ts, modelled from the
specification, section 4.4), the operation implementations of
operations/files.ts, operations/branches.ts (src/unnamed/part_002),
operations/issues.ts, operations/releases.ts (src/unnamed/part_000),
operations/gists.ts (src/unnamed/part_001), operations/statuses.ts,
operations/commits.ts, operations/search.ts, operations/rate_limit.ts,
operations/projects.ts and operations/packages.ts, and the request handler
of src/index.ts (credential resolution, dispatch switch, error wrapping).

Network effects are made explicit: a computation runs against an oracle
assigning an HTTP response to each successive outgoing request, and the
list of issued requests is collected in order as the trace.
-/

/-- JSON values, the payload type of tool arguments and API responses. -/
inductive JValue where
  | nullJ : JValue
  | boolJ (b : Bool) : JValue
  | numJ (n : Int) : JValue
  | strJ (s : String) : JValue
  | arrJ (xs : List JValue) : JValue
  | objJ (fields : List (String × JValue)) : JValue

/-- An argument record: an ordered list of key/value pairs. -/
abbrev JObj : Type := List (String × JValue)

/-- Field lookup in a record (first binding wins, as in a JS object). -/
def jget (r : JObj) (k : String) : Option JValue :=
  match r with
  | [] => none
  | (k0, v) :: rest => if k0 = k then some v else jget rest k

/-- Setting a field of a record: replaces an existing binding, else appends. -/
def jset (r : JObj) (k : String) (v : JValue) : JObj :=
  match r with
  | [] => [(k, v)]
  | (k0, v0) :: rest => if k0 = k then (k0, v) :: rest else (k0, v0) :: jset rest k v

/-- JavaScript truthiness of an optional JSON value, as used by the
dispatcher checks of the form `if (x.field)`. -/
def jtruthy : Option JValue → Bool
  | none => false
  | some .nullJ => false
  | some (.boolJ b) => b
  | some (.numJ n) => n != 0
  | some (.strJ s) => s != ""
  | some (.arrJ _) => true
  | some (.objJ _) => true

/-- Read a string field, defaulting to the empty string.  Handlers call this
only after schema validation has established presence and type. -/
def getStr (r : JObj) (k : String) : String :=
  match jget r k with
  | some (.strJ s) => s
  | _ => ""

/-- Read an optional string field. -/
def getStrOpt (r : JObj) (k : String) : Option String :=
  match jget r k with
  | some (.strJ s) => some s
  | _ => none

/-- Read an integer field, defaulting to zero. -/
def getNum (r : JObj) (k : String) : Int :=
  match jget r k with
  | some (.numJ n) => n
  | _ => 0

/-- Read an optional integer field. -/
def getNumOpt (r : JObj) (k : String) : Option Int :=
  match jget r k with
  | some (.numJ n) => some n
  | _ => none

/-- Read an optional boolean field. -/
def getBoolOpt (r : JObj) (k : String) : Option Bool :=
  match jget r k with
  | some (.boolJ b) => some b
  | _ => none

/-- Read an optional field as a raw JSON value. -/
def getJOpt (r : JObj) (k : String) : Option JValue := jget r k

/-- Types a zod field validator can impose on an argument field, one
constructor per z.* combinator shape used in the input schemas of the
source (primitive types, bounded numbers, string enumerations, string
arrays, the push_files file-operation array, the create_gist file record,
and the untyped comments array). -/
inductive FieldType where
  | strT : FieldType
  | numT : FieldType
  | boolT : FieldType
  | numRange (lo hi : Option Int) : FieldType
  | enumOf (allowed : List String) : FieldType
  | strArrT : FieldType
  | anyArrT : FieldType
  | fileOpsT : FieldType
  | gistFilesT : FieldType
deriving DecidableEq

/-- An object schema: field name, field type, and whether it is required
(true for plain z.X(), false for z.X().optional()). -/
abbrev ObjSchema : Type := List (String × FieldType × Bool)

/-- The value is a string. -/
def isStr : JValue → Bool
  | .strJ _ => true
  | _ => false

/-- Does a JSON value satisfy a field type?  Mirrors the acceptance
behaviour of the zod combinators used in the source input schemas. -/
def checkType : FieldType → JValue → Bool
  | .strT, v => isStr v
  | .numT, .numJ _ => true
  | .numT, _ => false
  | .boolT, .boolJ _ => true
  | .boolT, _ => false
  | .numRange lo hi, .numJ n =>
      (match lo with | some l => decide (l ≤ n) | none => true) &&
      (match hi with | some h => decide (n ≤ h) | none => true)
  | .numRange _ _, _ => false
  | .enumOf allowed, .strJ s => allowed.contains s
  | .enumOf _, _ => false
  | .strArrT, .arrJ xs => xs.all isStr
  | .strArrT, _ => false
  | .anyArrT, .arrJ _ => true
  | .anyArrT, _ => false
  | .fileOpsT, .arrJ xs => xs.all (fun x =>
      match x with
      | .objJ f =>
          (match jget f "path" with | some w => isStr w | none => false) &&
          (match jget f "content" with | some w => isStr w | none => false)
      | _ => false)
  | .fileOpsT, _ => false
  | .gistFilesT, .objJ kvs => kvs.all (fun kv =>
      match kv.2 with
      | .objJ f => (match jget f "content" with | some w => isStr w | none => false)
      | _ => false)
  | .gistFilesT, _ => false

/-- The validation issues a schema reports for one field of a record:
zod enumerates every violated field, not only the first. -/
def fieldIssues (rec : JObj) (fs : String × FieldType × Bool) : List String :=
  match jget rec fs.1 with
  | none => if fs.2.2 then [fs.1 ++ ": Required"] else []
  | some v => if checkType fs.2.1 v then [] else [fs.1 ++ ": Invalid"]

/-- All validation issues of a record against an object schema. -/
def schemaIssues (s : ObjSchema) (rec : JObj) : List String :=
  (s.map (fieldIssues rec)).flatten

/-- Validate a record against an object schema: succeed, or fail with the
full list of violated fields, as ZodObject.parse does. -/
def zodCheck (s : ObjSchema) (rec : JObj) : Except (List String) Unit :=
  match schemaIssues s rec with
  | [] => .ok ()
  | issues => .error issues

/-- Extending a public input schema with the required github_pat field, as
every `_XSchema = XSchema.extend({github_pat: z.string()})` does. -/
def withPat (s : ObjSchema) : ObjSchema :=
  s ++ [("github_pat", FieldType.strT, true)]

/-- A response schema: per field a name, an acceptance predicate and a
required flag.  Nested objects are expressed by predicate composition. -/
abbrev RespSchema : Type := List (String × (JValue → Bool) × Bool)

/-- The value is a number. -/
def isNum : JValue → Bool
  | .numJ _ => true
  | _ => false

/-- The value is a boolean. -/
def isBool : JValue → Bool
  | .boolJ _ => true
  | _ => false

/-- Any value is accepted (z.any()). -/
def isAny : JValue → Bool := fun _ => true

/-- Nullable acceptance (z.X().nullable()). -/
def orNullP (p : JValue → Bool) : JValue → Bool := fun v =>
  match v with
  | .nullJ => true
  | w => p w

/-- The value is an object satisfying the response schema: required fields
present and accepted, optional fields accepted when present. -/
def checkResp (s : RespSchema) : JValue → Bool := fun v =>
  match v with
  | .objJ f => s.all (fun fs =>
      match jget f fs.1 with
      | none => !fs.2.2
      | some w => fs.2.1 w)
  | _ => false

/-- The value is an array whose elements all satisfy the predicate. -/
def isArrOf (p : JValue → Bool) : JValue → Bool := fun v =>
  match v with
  | .arrJ xs => xs.all p
  | _ => false

/-- The value is one of a fixed list of string literals (z.enum). -/
def isEnum (allowed : List String) : JValue → Bool := fun v =>
  match v with
  | .strJ s => allowed.contains s
  | _ => false

/-- The value is an object all of whose field values satisfy the
predicate (z.record). -/
def isRecordOf (p : JValue → Bool) : JValue → Bool := fun v =>
  match v with
  | .objJ kvs => kvs.all (fun kv => p kv.2)
  | _ => false

/-! ### Byte-level codecs

The source uses Node Buffer conversions: `Buffer.from(s).toString("base64")`
(UTF-8 encode then base64 encode) and `Buffer.from(s, "base64").toString()`
(base64 decode then UTF-8 decode).  Both are modelled executably here. -/

/-- UTF-8 encoding of one code point as a list of bytes. -/
def utf8EncodeChar (n : Nat) : List Nat :=
  if n < 0x80 then [n]
  else if n < 0x800 then [0xC0 + n / 64, 0x80 + n % 64]
  else if n < 0x10000 then [0xE0 + n / 4096, 0x80 + n / 64 % 64, 0x80 + n % 64]
  else [0xF0 + n / 262144, 0x80 + n / 4096 % 64, 0x80 + n / 64 % 64, 0x80 + n % 64]

/-- UTF-8 bytes of a string. -/
def utf8Bytes (s : String) : List Nat :=
  (s.data.map (fun c => utf8EncodeChar c.toNat)).flatten

/-- The base64 alphabet character for a 6-bit value. -/
def b64Char (n : Nat) : Char :=
  "ABCDEFGHIJKLMNOPQRSTUVWXYZabcdefghijklmnopqrstuvwxyz0123456789+/".data.getD n '='

/-- Base64 encoding of a byte list, with padding. -/
def base64Chunks : List Nat → List Char
  | a :: b :: c :: rest =>
      b64Char (a / 4) :: b64Char (a % 4 * 16 + b / 16) ::
      b64Char (b % 16 * 4 + c / 64) :: b64Char (c % 64) :: base64Chunks rest
  | [a, b] => [b64Char (a / 4), b64Char (a % 4 * 16 + b / 16), b64Char (b % 16 * 4), '=']
  | [a] => [b64Char (a / 4), b64Char (a % 4 * 16), '=', '=']
  | [] => []

/-- Node `Buffer.from(s).toString("base64")`. -/
def utf8ToBase64 (s : String) : String :=
  String.mk (base64Chunks (utf8Bytes s))

/-- The 6-bit value of a base64 alphabet character; padding and foreign
characters yield none and are skipped, as Node`s lenient decoder does. -/
def b64Val (c : Char) : Option Nat :=
  if 'A' ≤ c ∧ c ≤ 'Z' then some (c.toNat - 65)
  else if 'a' ≤ c ∧ c ≤ 'z' then some (c.toNat - 97 + 26)
  else if '0' ≤ c ∧ c ≤ '9' then some (c.toNat - 48 + 52)
  else if c = '+' then some 62
  else if c = '/' then some 63
  else none

/-- Base64 decoding of a filtered list of 6-bit values into bytes. -/
def b64Bytes : List Nat → List Nat
  | a :: b :: c :: d :: rest =>
      (a * 4 + b / 16) :: (b % 16 * 16 + c / 4) :: (c % 4 * 64 + d) :: b64Bytes rest
  | [a, b, c] => [a * 4 + b / 16, b % 16 * 16 + c / 4]
  | [a, b] => [a * 4 + b / 16]
  | _ => []

/-- The first k elements of the list exist and are UTF-8 continuation
bytes (0x80 to 0xBF). -/
def contBytesOk (l : List Nat) (k : Nat) : Bool :=
  decide (k ≤ l.length) && (l.take k).all (fun b => 0x80 ≤ b && b < 0xC0)

/-- Continuation payload: the 6-bit values of the first k bytes folded in. -/
def contPayload (l : List Nat) (k : Nat) (acc : Nat) : Nat :=
  (l.take k).foldl (fun a b => a * 64 + (b - 0x80)) acc

/-- A code point list decoded from UTF-8 bytes; malformed sequences decode
to U+FFFD, as Node toString("utf8") replaces invalid input. -/
def utf8DecodeBytes : List Nat → List Char
  | [] => []
  | b :: rest =>
      if b < 0x80 then Char.ofNat b :: utf8DecodeBytes rest
      else if 0xC0 ≤ b ∧ b < 0xE0 ∧ contBytesOk rest 1 then
        Char.ofNat (contPayload rest 1 (b - 0xC0)) :: utf8DecodeBytes (rest.drop 1)
      else if 0xE0 ≤ b ∧ b < 0xF0 ∧ contBytesOk rest 2 then
        Char.ofNat (contPayload rest 2 (b - 0xE0)) :: utf8DecodeBytes (rest.drop 2)
      else if 0xF0 ≤ b ∧ b < 0xF8 ∧ contBytesOk rest 3 then
        Char.ofNat (contPayload rest 3 (b - 0xF0)) :: utf8DecodeBytes (rest.drop 3)
      else Char.ofNat 0xFFFD :: utf8DecodeBytes rest
termination_by l => l.length
decreasing_by all_goals (simp only [List.length_cons, List.length_drop]; omega)

/-- Node `Buffer.from(s, "base64").toString()` (default encoding utf8). -/
def base64ToUtf8 (s : String) : String :=
  String.mk (utf8DecodeBytes (b64Bytes (s.data.filterMap b64Val)))

/-! ### Timestamps

GitHubRateLimitError carries a reset Date; formatGitHubError prints it via
Date.toISOString().  The Date is modelled as its epoch-second count and the
ISO rendering is computed with the standard civil-from-days algorithm. -/

/-- Left-pad a natural number to two digits. -/
def pad2 (n : Nat) : String :=
  if n < 10 then "0" ++ toString n else toString n

/-- Left-pad a natural number to four digits. -/
def pad4 (n : Nat) : String :=
  if n < 10 then "000" ++ toString n
  else if n < 100 then "00" ++ toString n
  else if n < 1000 then "0" ++ toString n
  else toString n

/-- Civil date (year, month, day) of a day count since 1970-01-01. -/
def civilFromDays (z0 : Nat) : Nat × Nat × Nat :=
  let z := z0 + 719468
  let era := z / 146097
  let doe := z % 146097
  let yoe := (doe - doe / 1460 + doe / 36524 - doe / 146096) / 365
  let y := yoe + era * 400
  let doy := doe - (365 * yoe + yoe / 4 - yoe / 100)
  let mp := (5 * doy + 2) / 153
  let d := doy - (153 * mp + 2) / 5 + 1
  let m := if mp < 10 then mp + 3 else mp - 9
  (if m ≤ 2 then y + 1 else y, m, d)

/-- ISO-8601 rendering of an epoch-second timestamp, as
Date.toISOString() prints it (milliseconds always .000 here). -/
def toISOString (epochSec : Nat) : String :=
  let days := epochSec / 86400
  let secs := epochSec % 86400
  let ymd := civilFromDays days
  pad4 ymd.1 ++ "-" ++ pad2 ymd.2.1 ++ "-" ++ pad2 ymd.2.2 ++ "T" ++
    pad2 (secs / 3600) ++ ":" ++ pad2 (secs % 3600 / 60) ++ ":" ++
    pad2 (secs % 60) ++ ".000Z"

/-! ### JSON rendering

JSON.stringify is used for success payloads, validation details and the
Invalid input message.  A compact renderer is used (the indent argument of
JSON.stringify only affects whitespace, which no claim inspects). -/

/-- Escape a string for JSON output (quotes and backslashes). -/
def jsonEscape (s : String) : String :=
  String.mk (s.data.flatMap (fun c =>
    if c = '"' then ['\\', '"']
    else if c = '\\' then ['\\', '\\']
    else if c = '\n' then ['\\', 'n']
    else [c]))

mutual

/-- Compact JSON rendering of a value. -/
def renderJson : JValue → String
  | .nullJ => "null"
  | .boolJ true => "true"
  | .boolJ false => "false"
  | .numJ n => toString n
  | .strJ s => "\"" ++ jsonEscape s ++ "\""
  | .arrJ xs => "[" ++ renderJsonList xs ++ "]"
  | .objJ fields => "\x7b" ++ renderJsonFields fields ++ "\x7d"

/-- Comma-separated rendering of array elements. -/
def renderJsonList : List JValue → String
  | [] => ""
  | [x] => renderJson x
  | x :: xs => renderJson x ++ "," ++ renderJsonList xs

/-- Comma-separated rendering of object fields. -/
def renderJsonFields : List (String × JValue) → String
  | [] => ""
  | [(k, v)] => "\"" ++ jsonEscape k ++ "\":" ++ renderJson v
  | (k, v) :: kvs => "\"" ++ jsonEscape k ++ "\":" ++ renderJson v ++ "," ++ renderJsonFields kvs

end

/-! ### Error taxonomy and classifier

common/errors.ts is not among the provided sources.  The error classes and
the status classifier are modelled from the specification, section 4.4:
401 maps to AuthenticationError, 403 to PermissionError, 404 to
ResourceNotFoundError, 409 to ConflictError, 422 to ValidationError with
the response body preserved, 429 or a 403 whose rate-limit-remaining
header is 0 to RateLimitError with a reset timestamp computed from the
reset header, and any other non-2xx status to a generic GitHubError. -/

/-- The GitHub error classes of common/errors.ts.  The generic constructor
stands for the GitHubError base class; the others for its subclasses. -/
inductive GitHubError where
  | validation (message : String) (response : Option JValue) : GitHubError
  | resourceNotFound (message : String) : GitHubError
  | authentication (message : String) : GitHubError
  | permission (message : String) : GitHubError
  | rateLimit (message : String) (resetAt : Nat) : GitHubError
  | conflict (message : String) : GitHubError
  | generic (status : Nat) (message : String) (body : JValue) : GitHubError

/-- Case-sensitive response-header lookup (header names are produced
lower-case by the HTTP client). -/
def headerVal (headers : List (String × String)) (name : String) : Option String :=
  (headers.find? (fun h => h.1 = name)).map (fun h => h.2)

/-- Descriptive message of an error response body: its message field when
present, else the whole body rendered, a common GitHub client convention.
Modelled from the spec: common/errors.ts is not in the provided sources. -/
def messageOf (body : JValue) : String :=
  match body with
  | .objJ fields =>
      match jget fields "message" with
      | some (.strJ m) => m
      | _ => renderJson body
  | _ => renderJson body

/-- Reset timestamp (epoch seconds) parsed from the x-ratelimit-reset
header, zero when absent or malformed. -/
def resetFrom (headers : List (String × String)) : Nat :=
  match headerVal headers "x-ratelimit-reset" with
  | some v => v.toNat?.getD 0
  | none => 0

/-- Modelled from the spec: the deterministic status-to-kind classifier of
common/errors.ts (section 4.4 of the specification).  The rate-limit rule
(429, or 403 with rate-limit-remaining 0) takes precedence over the plain
403 rule so that every status maps to exactly one kind. -/
def createGitHubError (status : Nat) (headers : List (String × String))
    (body : JValue) : GitHubError :=
  if status = 429 ∨ (status = 403 ∧ headerVal headers "x-ratelimit-remaining" = some "0") then
    .rateLimit (messageOf body) (resetFrom headers)
  else if status = 401 then .authentication (messageOf body)
  else if status = 403 then .permission (messageOf body)
  else if status = 404 then .resourceNotFound (messageOf body)
  else if status = 409 then .conflict (messageOf body)
  else if status = 422 then .validation (messageOf body) (some body)
  else .generic status (messageOf body) body

/-- formatGitHubError of src/index.ts: one descriptive message per error
kind, a category label first, the rate-limit message ending in the reset
time.  The instanceof chain over disjoint subclasses is a case match. -/
def formatGitHubError : GitHubError → String
  | .validation msg response =>
      "Validation Error: " ++ msg ++
      (match response with
       | some r => "\nDetails: " ++ renderJson r
       | none => "")
  | .resourceNotFound msg => "Not Found: " ++ msg
  | .authentication msg => "Authentication Failed: " ++ msg
  | .permission msg => "Permission Denied: " ++ msg
  | .rateLimit msg resetAt => "Rate Limit Exceeded: " ++ msg ++ "\nResets at: " ++ toISOString resetAt
  | .conflict msg => "Conflict: " ++ msg
  | .generic _ msg _ => "GitHub API Error: " ++ msg

/-! ### HTTP invoker

common/utils.ts is not among the provided sources; githubRequest and
buildUrl are modelled from the specification, section 4.3: one call per
invocation, bearer credential attached, non-2xx responses classified by
createGitHubError, 2xx responses returned as parsed JSON.  A computation
runs against an oracle giving the response of each successive call, and
records every issued request in order. -/

/-- The body of an outgoing request: a JSON document for ordinary calls, a
raw string for the binary asset upload. -/
inductive ReqBody where
  | jsonB (v : JValue) : ReqBody
  | rawB (s : String) : ReqBody

/-- An outgoing HTTP request as the invoker issues it. -/
structure HttpRequest where
  method : String
  url : String
  body : Option ReqBody
  headers : List (String × String)
  pat : String

/-- Options of a githubRequest call; method defaults to GET. -/
structure RequestOptions where
  method : String := "GET"
  body : Option ReqBody := none
  headers : List (String × String) := []

/-- A response the oracle returns for one call. -/
structure HttpResponse where
  status : Nat
  rheaders : List (String × String)
  rbody : JValue

/-- The response oracle: the n-th outgoing call receives oracle n. -/
abbrev Oracle : Type := Nat → HttpResponse

/-- Exceptions of a running tool invocation: a zod parse failure, a
classified GitHub error, or a plain JavaScript Error with a message. -/
inductive GHException where
  | zodError (issues : List String) : GHException
  | ghError (e : GitHubError) : GHException
  | jsError (msg : String) : GHException

/-- The network computation monad: given the oracle and the requests
issued so far, produce a result or an exception, together with the
extended request trace. -/
def Net (α : Type) : Type := Oracle → List HttpRequest → Except GHException α × List HttpRequest

/-- Monadic return for Net. -/
def Net.pure (a : α) : Net α := fun _ trace => (.ok a, trace)

/-- Monadic bind for Net: exceptions stop the computation but keep the
trace accumulated so far. -/
def Net.bind (x : Net α) (f : α → Net β) : Net β := fun oracle trace =>
  match x oracle trace with
  | (.ok a, trace1) => f a oracle trace1
  | (.error e, trace1) => (.error e, trace1)

instance : Monad Net where
  pure := Net.pure
  bind := Net.bind

/-- Throwing an exception in Net. -/
def throwNet (e : GHException) : Net α := fun _ trace => (.error e, trace)

/-- A try/catch block in Net: any exception of the body runs the handler,
mirroring JavaScript catch. -/
def tryCatchNet (x : Net α) (handler : GHException → Net α) : Net α := fun oracle trace =>
  match x oracle trace with
  | (.ok a, trace1) => (.ok a, trace1)
  | (.error e, trace1) => handler e oracle trace1

/-- Modelled from the spec: githubRequest of common/utils.ts (section 4.3
of the specification).  Issues exactly one call carrying the credential,
returns the JSON body on a 2xx status and raises the classified error on
any other status. -/
def githubRequest (github_pat : String) (url : String)
    (options : RequestOptions := {}) : Net JValue := fun oracle trace =>
  let response := oracle trace.length
  let trace1 := trace ++ [{ method := options.method, url := url,
                            body := options.body, headers := options.headers,
                            pat := github_pat }]
  if 200 ≤ response.status ∧ response.status < 300 then
    (.ok response.rbody, trace1)
  else
    (.error (.ghError (createGitHubError response.status response.rheaders response.rbody)),
     trace1)

/-- Modelled from the spec: buildUrl of common/utils.ts appends every
defined entry of the parameter record as a query parameter. -/
def buildUrl (base : String) (params : List (String × Option String)) : String :=
  let ps := params.filterMap (fun kv => kv.2.map (fun v => kv.1 ++ "=" ++ v))
  match ps with
  | [] => base
  | _ => base ++ "?" ++ String.intercalate "&" ps

/-- URL.searchParams.append on a built URL string: the first parameter is
joined with a question mark, later ones with an ampersand. -/
def addParam (url : String) (k v : String) : String :=
  url ++ (if url.contains '?' then "&" else "?") ++ k ++ "=" ++ v

/-- The number.toString() conversion used when numeric options are put
into query strings. -/
def numStr (n : Int) : String := toString n

/-- JavaScript truthiness of an optional string, for guards of the form
`if (options.x) url.searchParams.append(...)`. -/
def strTruthy : Option String → Bool
  | some s => s != ""
  | none => false

/-- JavaScript truthiness of an optional number. -/
def numTruthy : Option Int → Bool
  | some n => n != 0
  | none => false

/-- Append a query parameter only when the optional string is truthy. -/
def addParamIfStr (url : String) (k : String) (v : Option String) : String :=
  if strTruthy v then addParam url k (v.getD "") else url

/-- Append a query parameter only when the optional number is truthy. -/
def addParamIfNum (url : String) (k : String) (v : Option Int) : String :=
  if numTruthy v then addParam url k (numStr (v.getD 0)) else url

/-- Validate a response against an object schema, raising a ZodError on
mismatch, as the Schema.parse calls after each request do; the parsed
value is returned unchanged. -/
def parseResp (s : RespSchema) (v : JValue) : Net JValue :=
  if checkResp s v then Net.pure v
  else throwNet (.zodError ["response shape mismatch"])

/-- Validate a response against z.array(schema). -/
def parseRespArr (s : RespSchema) (v : JValue) : Net JValue :=
  if isArrOf (checkResp s) v then Net.pure v
  else throwNet (.zodError ["response shape mismatch"])

/-! ### Response schemas

common/types.ts is not among the provided sources.  The response schemas
below are modelled from the specification (section 3, ExternalEntity
shapes validated post-hoc) and from the fields the operation code reads. -/

/-- Modelled from the spec: GitHubAuthorSchema of common/types.ts. -/
def GitHubAuthorFields : RespSchema :=
  [("name", isStr, true), ("email", isStr, true), ("date", isStr, true)]

/-- Modelled from the spec: GitHubIssueAssigneeSchema of common/types.ts. -/
def GitHubIssueAssigneeFields : RespSchema :=
  [("login", isStr, true), ("id", isNum, true)]

/-- Modelled from the spec: GitHubReferenceSchema of common/types.ts; the
code reads ref and object.sha. -/
def GitHubReferenceFields : RespSchema :=
  [("ref", isStr, true),
   ("url", isStr, false),
   ("object", checkResp [("sha", isStr, true), ("type", isStr, false), ("url", isStr, false)], true)]

/-- Modelled from the spec: the single-file shape of GitHubContentSchema
of common/types.ts; the code reads sha, content and encoding and the
dispatcher prints name, path, size and the URL fields. -/
def GitHubFileContentFields : RespSchema :=
  [("name", isStr, true), ("path", isStr, true), ("sha", isStr, true),
   ("size", isNum, true), ("url", isStr, true), ("html_url", isStr, false),
   ("download_url", orNullP isStr, false), ("type", isStr, true),
   ("content", isStr, false), ("encoding", isStr, false)]

/-- Modelled from the spec: the directory-entry shape of
GitHubContentSchema of common/types.ts. -/
def GitHubDirEntryFields : RespSchema :=
  [("name", isStr, true), ("path", isStr, true), ("sha", isStr, true),
   ("size", isNum, true), ("type", isStr, true)]

/-- Modelled from the spec: GitHubTreeSchema of common/types.ts; the code
reads sha. -/
def GitHubTreeFields : RespSchema :=
  [("sha", isStr, true), ("url", isStr, false), ("tree", isArrOf isAny, false)]

/-- Modelled from the spec: GitHubCommitSchema of common/types.ts; the
code reads sha. -/
def GitHubCommitFields : RespSchema :=
  [("sha", isStr, true), ("url", isStr, false), ("message", isStr, false)]

/-- GitHubCreateUpdateFileResponseSchema of operations/files.ts. -/
def GitHubCreateUpdateFileResponseFields : RespSchema :=
  [("content", orNullP (checkResp GitHubFileContentFields), true),
   ("commit", checkResp
     [("sha", isStr, true), ("node_id", isStr, true), ("url", isStr, true),
      ("html_url", isStr, true), ("author", checkResp GitHubAuthorFields, true),
      ("committer", checkResp GitHubAuthorFields, true), ("message", isStr, true),
      ("tree", checkResp [("sha", isStr, true), ("url", isStr, true)], true),
      ("parents", isArrOf (checkResp
        [("sha", isStr, true), ("url", isStr, true), ("html_url", isStr, true)]), true)],
    true)]

/-- The object.sha of a parsed git reference. -/
def refSha (v : JValue) : String :=
  match v with
  | .objJ f =>
      match jget f "object" with
      | some (.objJ g) => getStr g "sha"
      | _ => ""
  | _ => ""

/-- Top-level string field of a parsed response object. -/
def objStr (v : JValue) (k : String) : String :=
  match v with
  | .objJ f => getStr f k
  | _ => ""

/-- Set a field on a JSON object value (used for the in-place mutation of
data.content and data.encoding in getFileContents). -/
def jsetV (v : JValue) (k : String) (x : JValue) : JValue :=
  match v with
  | .objJ f => .objJ (jset f k x)
  | _ => v

/-- Base URL of a repository-scoped endpoint. -/
def repoUrl (owner repo path : String) : String :=
  "https://api.github.com/repos/" ++ owner ++ "/" ++ repo ++ path

/-! ### operations/branches.ts (src/unnamed/part_002, second document) -/

/-- getDefaultBranchSHA: probe refs/heads/main; on any failure of the
probe (request or response parse) probe refs/heads/master, whose own
failure propagates; a falsy master response raises the could-not-find
error. -/
def getDefaultBranchSHA (github_pat owner repo : String) : Net String :=
  tryCatchNet
    (do
      let response ← githubRequest github_pat
        (repoUrl owner repo "/git/refs/heads/main")
      let data ← parseResp GitHubReferenceFields response
      Net.pure (refSha data))
    (fun _ => do
      let masterResponse ← githubRequest github_pat
        (repoUrl owner repo "/git/refs/heads/master")
      if jtruthy (some masterResponse) = false then
        throwNet (.jsError "Could not find default branch (tried \x27main\x27 and \x27master\x27)")
      else do
        let data ← parseResp GitHubReferenceFields masterResponse
        Net.pure (refSha data))

/-- createBranch: POST the fully-qualified ref and source sha. -/
def createBranch (github_pat owner repo : String) (ref sha : String) : Net JValue := do
  let fullRef := "refs/heads/" ++ ref
  let response ← githubRequest github_pat (repoUrl owner repo "/git/refs")
    { method := "POST",
      body := some (.jsonB (.objJ [("ref", .strJ fullRef), ("sha", .strJ sha)])) }
  parseResp GitHubReferenceFields response

/-- getBranchSHA: read the sha of a named branch ref. -/
def getBranchSHA (github_pat owner repo branch : String) : Net String := do
  let response ← githubRequest github_pat
    (repoUrl owner repo ("/git/refs/heads/" ++ branch))
  let data ← parseResp GitHubReferenceFields response
  Net.pure (refSha data)

/-- createBranchFromRef: resolve the source sha from the named branch, or
from the default branch when none is given, then create the branch. -/
def createBranchFromRef (github_pat owner repo newBranch : String)
    (fromBranch : Option String) : Net JValue := do
  let sha ← match fromBranch with
    | some fb => getBranchSHA github_pat owner repo fb
    | none => getDefaultBranchSHA github_pat owner repo
  createBranch github_pat owner repo newBranch sha

/-- updateBranch: force-update a branch ref to a sha. -/
def updateBranch (github_pat owner repo branch sha : String) : Net JValue := do
  let response ← githubRequest github_pat
    (repoUrl owner repo ("/git/refs/heads/" ++ branch))
    { method := "PATCH",
      body := some (.jsonB (.objJ [("sha", .strJ sha), ("force", .boolJ true)])) }
  parseResp GitHubReferenceFields response

/-! ### operations/files.ts -/

/-- A file of a push_files call. -/
structure FileOperation where
  path : String
  content : String

/-- Arguments of getFileContents, matching the destructured object
parameter; encoded defaults to false in the destructuring. -/
structure GetFileContentsArgs where
  github_pat : String
  owner : String
  repo : String
  path : String
  encoded : Option Bool := none
  branch : Option String := none

/-- Validate a GitHubContentSchema response: a directory listing array or
a single file object. -/
def parseContent (v : JValue) : Net JValue :=
  match v with
  | .arrJ _ =>
      if isArrOf (checkResp GitHubDirEntryFields) v then Net.pure v
      else throwNet (.zodError ["response shape mismatch"])
  | _ =>
      if checkResp GitHubFileContentFields v then Net.pure v
      else throwNet (.zodError ["response shape mismatch"])

/-- getFileContents: fetch the contents; for a single file whose content
is present, when encoded is not requested (the destructuring default),
replace content with its base64-decoded UTF-8 text and set encoding to
utf8. -/
def getFileContents (a : GetFileContentsArgs) : Net JValue := do
  let encoded := a.encoded.getD false
  let url0 := repoUrl a.owner a.repo ("/contents/" ++ a.path)
  let url := if strTruthy a.branch then url0 ++ "?ref=" ++ a.branch.getD "" else url0
  let response ← githubRequest a.github_pat url
  let data ← parseContent response
  match data with
  | .arrJ _ => Net.pure data
  | _ =>
      if strTruthy (getStrOpt (match data with | .objJ f => f | _ => []) "content") ∧ encoded = false then
        Net.pure (jsetV (jsetV data "content"
          (.strJ (base64ToUtf8 (objStr data "content")))) "encoding" (.strJ "utf8"))
      else Net.pure data

/-- createOrUpdateFile: when no sha is supplied, probe the existing file
for one, treating any probe failure as absence, then PUT the new content
including the sha only when one was found. -/
def createOrUpdateFile (github_pat owner repo path content message branch : String)
    (sha : Option String) : Net JValue := do
  let currentSha ←
    if strTruthy sha then Net.pure sha
    else
      tryCatchNet
        (do
          let existingFile ← getFileContents
            { github_pat := github_pat, owner := owner, repo := repo,
              path := path, branch := some branch }
          match existingFile with
          | .arrJ _ => Net.pure sha
          | _ => Net.pure (some (objStr existingFile "sha")))
        (fun _ => Net.pure sha)
  let encodedContent := utf8ToBase64 content
  let url := repoUrl owner repo ("/contents/" ++ path)
  let body := JValue.objJ
    ([("message", .strJ message), ("content", .strJ encodedContent),
      ("branch", .strJ branch)] ++
     (if strTruthy currentSha then [("sha", .strJ (currentSha.getD ""))] else []))
  let response ← githubRequest github_pat url
    { method := "PUT", body := some (.jsonB body) }
  parseResp GitHubCreateUpdateFileResponseFields response

/-- createTree: POST the blob entries built from the files, with the base
tree when given. -/
def createTree (github_pat owner repo : String) (files : List FileOperation)
    (baseTree : Option String) : Net JValue := do
  let tree := files.map (fun file => JValue.objJ
    [("path", .strJ file.path), ("mode", .strJ "100644"),
     ("type", .strJ "blob"), ("content", .strJ file.content)])
  let response ← githubRequest github_pat (repoUrl owner repo "/git/trees")
    { method := "POST",
      body := some (.jsonB (.objJ
        ([("tree", .arrJ tree)] ++
         (match baseTree with
          | some b => [("base_tree", .strJ b)]
          | none => [])))) }
  parseResp GitHubTreeFields response

/-- createCommit: POST message, tree sha and parent shas. -/
def createCommit (github_pat owner repo message tree : String)
    (parents : List String) : Net JValue := do
  let response ← githubRequest github_pat (repoUrl owner repo "/git/commits")
    { method := "POST",
      body := some (.jsonB (.objJ
        [("message", .strJ message), ("tree", .strJ tree),
         ("parents", .arrJ (parents.map JValue.strJ))])) }
  parseResp GitHubCommitFields response

/-- updateReference: force-PATCH a ref to a sha. -/
def updateReference (github_pat owner repo ref sha : String) : Net JValue := do
  let response ← githubRequest github_pat
    (repoUrl owner repo ("/git/refs/" ++ ref))
    { method := "PATCH",
      body := some (.jsonB (.objJ [("sha", .strJ sha), ("force", .boolJ true)])) }
  parseResp GitHubReferenceFields response

/-- pushFiles: fetch the branch ref, create a tree from all files, create
a commit on it, then force-update the ref: exactly four sequential calls,
each awaited before the next. -/
def pushFiles (github_pat owner repo branch : String)
    (files : List FileOperation) (message : String) : Net JValue := do
  let refResponse ← githubRequest github_pat
    (repoUrl owner repo ("/git/refs/heads/" ++ branch))
  let ref ← parseResp GitHubReferenceFields refResponse
  let commitSha := refSha ref
  let tree ← createTree github_pat owner repo files (some commitSha)
  let commit ← createCommit github_pat owner repo message (objStr tree "sha") [commitSha]
  updateReference github_pat owner repo ("heads/" ++ branch) (objStr commit "sha")

/-! ### operations/releases.ts (src/unnamed/part_000) -/

/-- ReleaseAssetSchema of operations/releases.ts. -/
def ReleaseAssetFields : RespSchema :=
  [("url", isStr, true), ("id", isNum, true), ("node_id", isStr, true),
   ("name", isStr, true), ("label", orNullP isStr, true),
   ("content_type", isStr, true), ("state", isStr, true), ("size", isNum, true),
   ("download_count", isNum, true), ("created_at", isStr, true),
   ("updated_at", isStr, true), ("browser_download_url", isStr, true),
   ("uploader", orNullP (checkResp GitHubIssueAssigneeFields), true)]

/-- ReleaseSchema of operations/releases.ts. -/
def ReleaseFields : RespSchema :=
  [("url", isStr, true), ("assets_url", isStr, true), ("upload_url", isStr, true),
   ("html_url", isStr, true), ("id", isNum, true), ("node_id", isStr, true),
   ("tag_name", isStr, true), ("target_commitish", isStr, true),
   ("name", orNullP isStr, true), ("draft", isBool, true),
   ("prerelease", isBool, true), ("created_at", isStr, true),
   ("published_at", orNullP isStr, true),
   ("assets", isArrOf (checkResp ReleaseAssetFields), true),
   ("tarball_url", orNullP isStr, true), ("zipball_url", orNullP isStr, true),
   ("body", orNullP isStr, true),
   ("author", checkResp GitHubIssueAssigneeFields, true)]

/-- TagSchema of operations/releases.ts. -/
def TagFields : RespSchema :=
  [("ref", isStr, true), ("node_id", isStr, true), ("url", isStr, true),
   ("object", checkResp [("sha", isStr, true), ("type", isStr, true), ("url", isStr, true)], true)]

/-- Options of createRelease (all fields except owner, repo, pat). -/
structure CreateReleaseOptions where
  tag_name : String
  target_commitish : Option String := none
  name : Option String := none
  body : Option String := none
  draft : Option Bool := none
  prerelease : Option Bool := none
  generate_release_notes : Option Bool := none

/-- JSON body of a createRelease call: JSON.stringify drops the undefined
optional fields. -/
def createReleaseBody (o : CreateReleaseOptions) : JValue :=
  .objJ ([("tag_name", .strJ o.tag_name)] ++
    (match o.target_commitish with | some v => [("target_commitish", JValue.strJ v)] | none => []) ++
    (match o.name with | some v => [("name", JValue.strJ v)] | none => []) ++
    (match o.body with | some v => [("body", JValue.strJ v)] | none => []) ++
    (match o.draft with | some v => [("draft", JValue.boolJ v)] | none => []) ++
    (match o.prerelease with | some v => [("prerelease", JValue.boolJ v)] | none => []) ++
    (match o.generate_release_notes with | some v => [("generate_release_notes", JValue.boolJ v)] | none => []))

/-- createRelease: POST the release options. -/
def createRelease (github_pat owner repo : String) (options : CreateReleaseOptions) :
    Net JValue := do
  let response ← githubRequest github_pat (repoUrl owner repo "/releases")
    { method := "POST", body := some (.jsonB (createReleaseBody options)) }
  parseResp ReleaseFields response

/-- listReleases: GET with truthy-guarded pagination parameters. -/
def listReleases (github_pat owner repo : String)
    (per_page page : Option Int) : Net JValue := do
  let url := repoUrl owner repo "/releases"
  let url := addParamIfNum url "per_page" per_page
  let url := addParamIfNum url "page" page
  let response ← githubRequest github_pat url
  parseRespArr ReleaseFields response

/-- deleteRelease: DELETE by id, result discarded. -/
def deleteRelease (github_pat owner repo : String) (release_id : Int) : Net Unit := do
  let _ ← githubRequest github_pat
    (repoUrl owner repo ("/releases/" ++ numStr release_id))
    { method := "DELETE" }
  Net.pure ()

/-- getReleaseAsset: GET one asset by id. -/
def getReleaseAsset (github_pat owner repo : String) (asset_id : Int) : Net JValue := do
  let response ← githubRequest github_pat
    (repoUrl owner repo ("/releases/assets/" ++ numStr asset_id))
  parseResp ReleaseAssetFields response

/-- uploadReleaseAsset: fetch the release for its upload_url (no schema
validation, a direct property read), strip the URI-template suffix, add
the name and optional label parameters, then POST the base64-decoded
content raw with the caller-supplied content type. -/
def uploadReleaseAsset (github_pat owner repo : String) (release_id : Int)
    (name content content_type : String) (label : Option String) : Net JValue := do
  let release ← githubRequest github_pat
    (repoUrl owner repo ("/releases/" ++ numStr release_id))
  match release with
  | .objJ f =>
      match jget f "upload_url" with
      | some (.strJ u) =>
          let uploadUrl := u.replace "\x7b?name,label\x7d" ""
          let url := addParam uploadUrl "name" name
          let url := if strTruthy label then addParam url "label" (label.getD "") else url
          let response ← githubRequest github_pat url
            { method := "POST",
              body := some (.rawB (base64ToUtf8 content)),
              headers := [("Content-Type", content_type)] }
          parseResp ReleaseAssetFields response
      | _ => throwNet (.jsError "TypeError: upload_url is undefined")
  | _ => throwNet (.jsError "TypeError: upload_url is undefined")

/-- createTag: qualify the ref when needed and POST it. -/
def createTag (github_pat owner repo ref sha : String) : Net JValue := do
  let formattedRef := if ref.startsWith "refs/" then ref else "refs/tags/" ++ ref
  let response ← githubRequest github_pat (repoUrl owner repo "/git/refs")
    { method := "POST",
      body := some (.jsonB (.objJ [("ref", .strJ formattedRef), ("sha", .strJ sha)])) }
  parseResp TagFields response

/-! ### operations/issues.ts (src/unnamed/part_002, first document) -/

/-- getIssue: GET one issue. -/
def getIssue (github_pat owner repo : String) (issue_number : Int) : Net JValue :=
  githubRequest github_pat (repoUrl owner repo ("/issues/" ++ numStr issue_number))

/-- addIssueComment: POST the comment body. -/
def addIssueComment (github_pat owner repo : String) (issue_number : Int)
    (body : String) : Net JValue :=
  githubRequest github_pat
    (repoUrl owner repo ("/issues/" ++ numStr issue_number ++ "/comments"))
    { method := "POST", body := some (.jsonB (.objJ [("body", .strJ body)])) }

/-- Options of createIssue (fields except owner, repo, pat). -/
structure CreateIssueOptions where
  title : String
  body : Option String := none
  assignees : Option (List String) := none
  milestone : Option Int := none
  labels : Option (List String) := none

/-- JSON body of a createIssue call, undefined fields dropped. -/
def createIssueBody (o : CreateIssueOptions) : JValue :=
  .objJ ([("title", .strJ o.title)] ++
    (match o.body with | some v => [("body", JValue.strJ v)] | none => []) ++
    (match o.assignees with | some v => [("assignees", JValue.arrJ (v.map JValue.strJ))] | none => []) ++
    (match o.milestone with | some v => [("milestone", JValue.numJ v)] | none => []) ++
    (match o.labels with | some v => [("labels", JValue.arrJ (v.map JValue.strJ))] | none => []))

/-- createIssue: POST the issue options. -/
def createIssue (github_pat owner repo : String) (options : CreateIssueOptions) :
    Net JValue :=
  githubRequest github_pat (repoUrl owner repo "/issues")
    { method := "POST", body := some (.jsonB (createIssueBody options)) }

/-- Options of listIssues. -/
structure ListIssuesOptions where
  direction : Option String := none
  labels : Option (List String) := none
  page : Option Int := none
  per_page : Option Int := none
  since : Option String := none
  sort : Option String := none
  state : Option String := none

/-- listIssues: GET with the defined options as query parameters, in the
order of the urlParams record literal. -/
def listIssues (github_pat owner repo : String) (options : ListIssuesOptions) :
    Net JValue :=
  githubRequest github_pat
    (buildUrl (repoUrl owner repo "/issues")
      [("direction", options.direction),
       ("labels", options.labels.map (String.intercalate ",")),
       ("page", options.page.map numStr),
       ("per_page", options.per_page.map numStr),
       ("since", options.since),
       ("sort", options.sort),
       ("state", options.state)])

/-- Options of updateIssue. -/
structure UpdateIssueOptions where
  title : Option String := none
  body : Option String := none
  assignees : Option (List String) := none
  milestone : Option Int := none
  labels : Option (List String) := none
  state : Option String := none

/-- JSON body of an updateIssue call, undefined fields dropped. -/
def updateIssueBody (o : UpdateIssueOptions) : JValue :=
  .objJ ((match o.title with | some v => [("title", JValue.strJ v)] | none => []) ++
    (match o.body with | some v => [("body", JValue.strJ v)] | none => []) ++
    (match o.assignees with | some v => [("assignees", JValue.arrJ (v.map JValue.strJ))] | none => []) ++
    (match o.milestone with | some v => [("milestone", JValue.numJ v)] | none => []) ++
    (match o.labels with | some v => [("labels", JValue.arrJ (v.map JValue.strJ))] | none => []) ++
    (match o.state with | some v => [("state", JValue.strJ v)] | none => []))

/-- updateIssue: PATCH the issue options. -/
def updateIssue (github_pat owner repo : String) (issue_number : Int)
    (options : UpdateIssueOptions) : Net JValue :=
  githubRequest github_pat (repoUrl owner repo ("/issues/" ++ numStr issue_number))
    { method := "PATCH", body := some (.jsonB (updateIssueBody options)) }

/-! ### operations/gists.ts (src/unnamed/part_001) -/

/-- GistSchema of operations/gists.ts. -/
def GistFields : RespSchema :=
  [("url", isStr, true), ("forks_url", isStr, true), ("commits_url", isStr, true),
   ("id", isStr, true), ("node_id", isStr, true), ("git_pull_url", isStr, true),
   ("git_push_url", isStr, true), ("html_url", isStr, true),
   ("files", isRecordOf (checkResp
     [("filename", isStr, false), ("type", isStr, false), ("language", isStr, false),
      ("raw_url", isStr, false), ("size", isNum, false), ("truncated", isBool, false),
      ("content", isStr, false)]), true),
   ("public", isBool, true), ("created_at", isStr, true), ("updated_at", isStr, true),
   ("description", orNullP isStr, true), ("comments", isNum, true),
   ("user", orNullP (checkResp GitHubIssueAssigneeFields), true),
   ("comments_url", isStr, true),
   ("owner", orNullP (checkResp GitHubIssueAssigneeFields), true),
   ("truncated", isBool, false)]

/-- createGist: POST description, visibility and files. -/
def createGist (github_pat : String) (description : Option String) (isPublic : Bool)
    (files : List (String × String)) : Net JValue := do
  let response ← githubRequest github_pat "https://api.github.com/gists"
    { method := "POST",
      body := some (.jsonB (.objJ
        ((match description with | some d => [("description", JValue.strJ d)] | none => []) ++
         [("public", .boolJ isPublic),
          ("files", .objJ (files.map (fun kv =>
            (kv.1, JValue.objJ [("content", .strJ kv.2)]))))]))) }
  parseResp GistFields response

/-- listGists: GET with truthy-guarded query parameters. -/
def listGists (github_pat : String) (since : Option String)
    (per_page page : Option Int) : Net JValue := do
  let url := "https://api.github.com/gists"
  let url := addParamIfStr url "since" since
  let url := addParamIfNum url "per_page" per_page
  let url := addParamIfNum url "page" page
  let response ← githubRequest github_pat url
  parseRespArr GistFields response

/-- getGist: GET one gist. -/
def getGist (github_pat gist_id : String) : Net JValue := do
  let response ← githubRequest github_pat
    ("https://api.github.com/gists/" ++ gist_id)
  parseResp GistFields response

/-! ### operations/statuses.ts -/

/-- CommitStatusSchema of operations/statuses.ts. -/
def CommitStatusFields : RespSchema :=
  [("url", isStr, true), ("id", isNum, true), ("node_id", isStr, true),
   ("state", isEnum ["error", "failure", "pending", "success"], true),
   ("description", orNullP isStr, true), ("target_url", orNullP isStr, true),
   ("context", isStr, true), ("created_at", isStr, true), ("updated_at", isStr, true),
   ("creator", orNullP (checkResp GitHubIssueAssigneeFields), true)]

/-- CombinedStatusResponseSchema of operations/statuses.ts. -/
def CombinedStatusResponseFields : RespSchema :=
  [("state", isStr, true), ("statuses", isArrOf (checkResp CommitStatusFields), true),
   ("sha", isStr, true), ("total_count", isNum, true),
   ("repository", checkResp
     [("id", isNum, true), ("name", isStr, true), ("full_name", isStr, true),
      ("owner", isAny, true)], true)]

/-- createCommitStatus: POST the state and defined options. -/
def createCommitStatus (github_pat owner repo sha state : String)
    (target_url description context : Option String) : Net JValue := do
  let response ← githubRequest github_pat (repoUrl owner repo ("/statuses/" ++ sha))
    { method := "POST",
      body := some (.jsonB (.objJ
        ([("state", .strJ state)] ++
         (match target_url with | some v => [("target_url", JValue.strJ v)] | none => []) ++
         (match description with | some v => [("description", JValue.strJ v)] | none => []) ++
         (match context with | some v => [("context", JValue.strJ v)] | none => [])))) }
  parseResp CommitStatusFields response

/-- getCommitStatuses: GET the status list of a ref. -/
def getCommitStatuses (github_pat owner repo ref : String) : Net JValue := do
  let response ← githubRequest github_pat
    (repoUrl owner repo ("/commits/" ++ ref ++ "/statuses"))
  parseRespArr CommitStatusFields response

/-- getCombinedStatus: GET the combined status of a ref. -/
def getCombinedStatus (github_pat owner repo ref : String) : Net JValue := do
  let response ← githubRequest github_pat
    (repoUrl owner repo ("/commits/" ++ ref ++ "/status"))
  parseResp CombinedStatusResponseFields response

/-! ### operations/commits.ts -/

/-- listCommits: GET with the defined options as query parameters. -/
def listCommits (github_pat owner repo : String)
    (page perPage : Option Int) (sha : Option String) : Net JValue :=
  githubRequest github_pat
    (buildUrl (repoUrl owner repo "/commits")
      [("page", page.map numStr), ("per_page", perPage.map numStr), ("sha", sha)])

/-! ### operations/search.ts -/

/-- Search parameters common to the three search operations; sort only
exists for issue and user search. -/
structure SearchParams where
  q : String
  order : Option String := none
  page : Option Int := none
  per_page : Option Int := none
  sort : Option String := none

/-- Query parameters of a search call in the key order of the parsed
schema shape. -/
def searchQuery (p : SearchParams) : List (String × Option String) :=
  [("q", some p.q), ("order", p.order), ("page", p.page.map numStr),
   ("per_page", p.per_page.map numStr), ("sort", p.sort)]

/-- searchCode: GET /search/code. -/
def searchCode (github_pat : String) (params : SearchParams) : Net JValue :=
  githubRequest github_pat (buildUrl "https://api.github.com/search/code" (searchQuery params))

/-- searchIssues: GET /search/issues. -/
def searchIssues (github_pat : String) (params : SearchParams) : Net JValue :=
  githubRequest github_pat (buildUrl "https://api.github.com/search/issues" (searchQuery params))

/-- searchUsers: GET /search/users. -/
def searchUsers (github_pat : String) (params : SearchParams) : Net JValue :=
  githubRequest github_pat (buildUrl "https://api.github.com/search/users" (searchQuery params))

/-! ### operations/rate_limit.ts -/

/-- RateLimitResourceSchema of operations/rate_limit.ts. -/
def RateLimitResourceFields : RespSchema :=
  [("limit", isNum, true), ("used", isNum, true),
   ("remaining", isNum, true), ("reset", isNum, true)]

/-- RateLimitSchema of operations/rate_limit.ts. -/
def RateLimitFields : RespSchema :=
  [("resources", checkResp
     [("core", checkResp RateLimitResourceFields, true),
      ("search", checkResp RateLimitResourceFields, true),
      ("graphql", checkResp RateLimitResourceFields, true),
      ("integration_manifest", checkResp RateLimitResourceFields, true),
      ("code_scanning_upload", checkResp RateLimitResourceFields, true),
      ("actions_runner_registration", checkResp RateLimitResourceFields, true),
      ("scim", checkResp RateLimitResourceFields, true),
      ("dependency_snapshots", checkResp RateLimitResourceFields, true)], true),
   ("rate", checkResp RateLimitResourceFields, true)]

/-- getRateLimit: GET /rate_limit. -/
def getRateLimit (github_pat : String) : Net JValue := do
  let response ← githubRequest github_pat "https://api.github.com/rate_limit"
  parseResp RateLimitFields response

/-! ### operations/projects.ts -/

/-- ProjectSchema of operations/projects.ts. -/
def ProjectFields : RespSchema :=
  [("id", isNum, true), ("node_id", isStr, true), ("url", isStr, true),
   ("html_url", isStr, true), ("columns_url", isStr, true), ("owner_url", isStr, true),
   ("name", isStr, true), ("body", orNullP isStr, true), ("number", isNum, true),
   ("state", isStr, true), ("creator", checkResp GitHubIssueAssigneeFields, true),
   ("created_at", isStr, true), ("updated_at", isStr, true)]

/-- ProjectColumnSchema of operations/projects.ts. -/
def ProjectColumnFields : RespSchema :=
  [("id", isNum, true), ("node_id", isStr, true), ("url", isStr, true),
   ("project_url", isStr, true), ("cards_url", isStr, true), ("name", isStr, true),
   ("created_at", isStr, true), ("updated_at", isStr, true)]

/-- ProjectCardSchema of operations/projects.ts. -/
def ProjectCardFields : RespSchema :=
  [("id", isNum, true), ("node_id", isStr, true), ("url", isStr, true),
   ("project_url", isStr, true), ("column_url", isStr, true), ("column_id", isNum, true),
   ("note", orNullP isStr, true), ("archived", isBool, true),
   ("creator", checkResp GitHubIssueAssigneeFields, true),
   ("created_at", isStr, true), ("updated_at", isStr, true),
   ("content_url", isStr, false)]

/-- The preview Accept header the project-board endpoints send. -/
def inertiaHeaders : List (String × String) :=
  [("Accept", "application/vnd.github.inertia-preview+json")]

/-- listProjects: GET with truthy-guarded filters and the preview header. -/
def listProjects (github_pat owner repo : String) (state : Option String)
    (per_page page : Option Int) : Net JValue := do
  let url := repoUrl owner repo "/projects"
  let url := addParamIfStr url "state" state
  let url := addParamIfNum url "per_page" per_page
  let url := addParamIfNum url "page" page
  let response ← githubRequest github_pat url { headers := inertiaHeaders }
  parseRespArr ProjectFields response

/-- createProject: POST name and body with the preview header. -/
def createProject (github_pat owner repo name : String) (body : Option String) :
    Net JValue := do
  let response ← githubRequest github_pat (repoUrl owner repo "/projects")
    { method := "POST",
      body := some (.jsonB (.objJ
        ([("name", .strJ name)] ++
         (match body with | some v => [("body", JValue.strJ v)] | none => [])))),
      headers := inertiaHeaders }
  parseResp ProjectFields response

/-- listProjectColumns: GET the columns of a project. -/
def listProjectColumns (github_pat : String) (project_id : Int)
    (per_page page : Option Int) : Net JValue := do
  let url := "https://api.github.com/projects/" ++ numStr project_id ++ "/columns"
  let url := addParamIfNum url "per_page" per_page
  let url := addParamIfNum url "page" page
  let response ← githubRequest github_pat url { headers := inertiaHeaders }
  parseRespArr ProjectColumnFields response

/-- createProjectColumn: POST the column name. -/
def createProjectColumn (github_pat : String) (project_id : Int) (name : String) :
    Net JValue := do
  let response ← githubRequest github_pat
    ("https://api.github.com/projects/" ++ numStr project_id ++ "/columns")
    { method := "POST", body := some (.jsonB (.objJ [("name", .strJ name)])),
      headers := inertiaHeaders }
  parseResp ProjectColumnFields response

/-- createProjectCard: POST the note. -/
def createProjectCard (github_pat : String) (column_id : Int) (note : String) :
    Net JValue := do
  let response ← githubRequest github_pat
    ("https://api.github.com/projects/columns/" ++ numStr column_id ++ "/cards")
    { method := "POST", body := some (.jsonB (.objJ [("note", .strJ note)])),
      headers := inertiaHeaders }
  parseResp ProjectCardFields response

/-! ### operations/packages.ts -/

/-- PackageSchema of operations/packages.ts. -/
def PackageFields : RespSchema :=
  [("id", isNum, true), ("name", isStr, true), ("package_type", isStr, true),
   ("owner", checkResp GitHubIssueAssigneeFields, false), ("version_count", isNum, true),
   ("visibility", isStr, true), ("url", isStr, true), ("created_at", isStr, true),
   ("updated_at", isStr, true), ("html_url", isStr, true), ("versions_url", isStr, true),
   ("repository_url", isStr, false)]

/-- listOrgPackages: GET with truthy-guarded filters. -/
def listOrgPackages (github_pat org : String) (package_type visibility : Option String)
    (per_page page : Option Int) : Net JValue := do
  let url := "https://api.github.com/orgs/" ++ org ++ "/packages"
  let url := addParamIfStr url "package_type" package_type
  let url := addParamIfStr url "visibility" visibility
  let url := addParamIfNum url "per_page" per_page
  let url := addParamIfNum url "page" page
  let response ← githubRequest github_pat url
  parseRespArr PackageFields response

/-- listUserPackages: GET with truthy-guarded filters. -/
def listUserPackages (github_pat username : String) (package_type visibility : Option String)
    (per_page page : Option Int) : Net JValue := do
  let url := "https://api.github.com/users/" ++ username ++ "/packages"
  let url := addParamIfStr url "package_type" package_type
  let url := addParamIfStr url "visibility" visibility
  let url := addParamIfNum url "per_page" per_page
  let url := addParamIfNum url "page" page
  let response ← githubRequest github_pat url
  parseRespArr PackageFields response

/-- listRepoPackages: GET with truthy-guarded filters. -/
def listRepoPackages (github_pat owner repo : String) (package_type : Option String)
    (per_page page : Option Int) : Net JValue := do
  let url := repoUrl owner repo "/packages"
  let url := addParamIfStr url "package_type" package_type
  let url := addParamIfNum url "per_page" per_page
  let url := addParamIfNum url "page" page
  let response ← githubRequest github_pat url
  parseRespArr PackageFields response

/-- getOrgPackage: GET one package of an organization. -/
def getOrgPackage (github_pat org package_type package_name : String) : Net JValue := do
  let response ← githubRequest github_pat
    ("https://api.github.com/orgs/" ++ org ++ "/packages/" ++ package_type ++ "/" ++ package_name)
  parseResp PackageFields response

/-- getUserPackage: GET one package of a user. -/
def getUserPackage (github_pat username package_type package_name : String) : Net JValue := do
  let response ← githubRequest github_pat
    ("https://api.github.com/users/" ++ username ++ "/packages/" ++ package_type ++ "/" ++ package_name)
  parseResp PackageFields response

/-- getRepoPackage: GET one package of a repository. -/
def getRepoPackage (github_pat owner repo package_type package_name : String) : Net JValue := do
  let response ← githubRequest github_pat
    (repoUrl owner repo ("/packages/" ++ package_type ++ "/" ++ package_name))
  parseResp PackageFields response

/-! ### operations/repository.ts and operations/pulls.ts

These two modules are not among the provided sources; only their schemas
and functions imported by src/index.ts are known.  Each operation is
modelled from the specification (section 6 URL templates, single
authenticated call per sub-operation) and the argument destructuring of
the dispatcher. -/

/-- Modelled from the spec: forkRepository POSTs to the forks endpoint,
with the optional target organization as a query parameter. -/
def forkRepository (github_pat owner repo : String) (organization : Option String) :
    Net JValue :=
  githubRequest github_pat
    (addParamIfStr (repoUrl owner repo "/forks") "organization" organization)
    { method := "POST" }

/-- Modelled from the spec: searchRepositories GETs /search/repositories
with query and pagination parameters. -/
def searchRepositories (github_pat query : String) (page perPage : Option Int) :
    Net JValue :=
  githubRequest github_pat
    (buildUrl "https://api.github.com/search/repositories"
      [("q", some query), ("page", page.map numStr), ("per_page", perPage.map numStr)])

/-- Modelled from the spec: createRepository POSTs the repository options
to /user/repos. -/
def createRepository (github_pat : String) (options : JObj) : Net JValue :=
  githubRequest github_pat "https://api.github.com/user/repos"
    { method := "POST", body := some (.jsonB (.objJ options)) }

/-- Modelled from the spec: createPullRequest POSTs the pull-request
options to the pulls endpoint. -/
def createPullRequest (github_pat : String) (options : JObj) : Net JValue :=
  githubRequest github_pat
    (repoUrl (getStr options "owner") (getStr options "repo") "/pulls")
    { method := "POST", body := some (.jsonB (.objJ options)) }

/-- Modelled from the spec: createPullRequestReview POSTs the review
options to the reviews endpoint of the pull request. -/
def createPullRequestReview (github_pat owner repo : String) (pull_number : Int)
    (options : JObj) : Net JValue :=
  githubRequest github_pat
    (repoUrl owner repo ("/pulls/" ++ numStr pull_number ++ "/reviews"))
    { method := "POST", body := some (.jsonB (.objJ options)) }

/-- Modelled from the spec: submitPullRequestReview POSTs the event and
body to the events endpoint of the review. -/
def submitPullRequestReview (github_pat owner repo : String)
    (pull_number review_id : Int) (event : String) (body : Option String) : Net JValue :=
  githubRequest github_pat
    (repoUrl owner repo ("/pulls/" ++ numStr pull_number ++ "/reviews/" ++
      numStr review_id ++ "/events"))
    { method := "POST",
      body := some (.jsonB (.objJ
        ([("event", .strJ event)] ++
         (match body with | some v => [("body", JValue.strJ v)] | none => [])))) }

/-- Modelled from the spec: dismissPullRequestReview PUTs the dismissal
message to the dismissals endpoint of the review. -/
def dismissPullRequestReview (github_pat owner repo : String)
    (pull_number review_id : Int) (message : String) : Net JValue :=
  githubRequest github_pat
    (repoUrl owner repo ("/pulls/" ++ numStr pull_number ++ "/reviews/" ++
      numStr review_id ++ "/dismissals"))
    { method := "PUT", body := some (.jsonB (.objJ [("message", .strJ message)])) }

/-- Modelled from the spec: getPullRequestDiff GETs the pull request with
the diff media type and returns the raw text body. -/
def getPullRequestDiff (github_pat owner repo : String) (pull_number : Int) :
    Net JValue :=
  githubRequest github_pat
    (repoUrl owner repo ("/pulls/" ++ numStr pull_number))
    { headers := [("Accept", "application/vnd.github.v3.diff")] }

/-! ### Input schemas

One validator per registered tool, mirroring the z.object definitions of
the operation modules.  The schemas of operations/repository.ts and
operations/pulls.ts are not among the provided sources and are modelled
from the specification and the dispatcher destructuring. -/

/-- CreateOrUpdateFileSchema of operations/files.ts. -/
def CreateOrUpdateFileSchema : ObjSchema :=
  [("owner", .strT, true), ("repo", .strT, true), ("path", .strT, true),
   ("content", .strT, true), ("message", .strT, true), ("branch", .strT, true),
   ("sha", .strT, false)]

/-- GetFileContentsSchema of operations/files.ts. -/
def GetFileContentsSchema : ObjSchema :=
  [("owner", .strT, true), ("repo", .strT, true), ("path", .strT, true),
   ("encoded", .boolT, false), ("branch", .strT, false)]

/-- The describe() text of the encoded field of GetFileContentsSchema in
operations/files.ts. -/
def GetFileContentsEncodedDescr : String :=
  "Whether to return the content encoded in base64 (default = true)"

/-- PushFilesSchema of operations/files.ts. -/
def PushFilesSchema : ObjSchema :=
  [("owner", .strT, true), ("repo", .strT, true), ("branch", .strT, true),
   ("files", .fileOpsT, true),
   ("message", .strT, true)]

/-- GetIssueSchema of operations/issues.ts. -/
def GetIssueSchema : ObjSchema :=
  [("owner", .strT, true), ("repo", .strT, true), ("issue_number", .numT, true)]

/-- IssueCommentSchema of operations/issues.ts. -/
def IssueCommentSchema : ObjSchema :=
  [("owner", .strT, true), ("repo", .strT, true), ("issue_number", .numT, true),
   ("body", .strT, true)]

/-- CreateIssueSchema of operations/issues.ts. -/
def CreateIssueSchema : ObjSchema :=
  [("owner", .strT, true), ("repo", .strT, true), ("title", .strT, true),
   ("body", .strT, false), ("assignees", .strArrT, false),
   ("milestone", .numT, false), ("labels", .strArrT, false)]

/-- ListIssuesOptionsSchema of operations/issues.ts. -/
def ListIssuesOptionsSchema : ObjSchema :=
  [("owner", .strT, true), ("repo", .strT, true),
   ("direction", .enumOf ["asc", "desc"], false),
   ("labels", .strArrT, false), ("page", .numT, false),
   ("per_page", .numT, false), ("since", .strT, false),
   ("sort", .enumOf ["created", "updated", "comments"], false),
   ("state", .enumOf ["open", "closed", "all"], false)]

/-- UpdateIssueOptionsSchema of operations/issues.ts. -/
def UpdateIssueOptionsSchema : ObjSchema :=
  [("owner", .strT, true), ("repo", .strT, true), ("issue_number", .numT, true),
   ("title", .strT, false), ("body", .strT, false),
   ("assignees", .strArrT, false), ("milestone", .numT, false),
   ("labels", .strArrT, false), ("state", .enumOf ["open", "closed"], false)]

/-- CreateBranchSchema of operations/branches.ts. -/
def CreateBranchSchema : ObjSchema :=
  [("owner", .strT, true), ("repo", .strT, true), ("branch", .strT, true),
   ("from_branch", .strT, false)]

/-- ListCommitsSchema of operations/commits.ts. -/
def ListCommitsSchema : ObjSchema :=
  [("owner", .strT, true), ("repo", .strT, true), ("sha", .strT, false),
   ("page", .numT, false), ("perPage", .numT, false)]

/-- SearchOptions of operations/search.ts (also SearchCodeSchema). -/
def SearchCodeSchema : ObjSchema :=
  [("q", .strT, true), ("order", .enumOf ["asc", "desc"], false),
   ("page", .numRange (some 1) none, false),
   ("per_page", .numRange (some 1) (some 100), false)]

/-- SearchUsersSchema of operations/search.ts. -/
def SearchUsersSchema : ObjSchema :=
  SearchCodeSchema ++ [("sort", .enumOf ["followers", "repositories", "joined"], false)]

/-- SearchIssuesSchema of operations/search.ts. -/
def SearchIssuesSchema : ObjSchema :=
  SearchCodeSchema ++
  [("sort", .enumOf
    ["comments", "reactions", "reactions-+1", "reactions--1", "reactions-smile",
     "reactions-thinking_face", "reactions-heart", "reactions-tada",
     "interactions", "created", "updated"], false)]

/-- CreateReleaseSchema of operations/releases.ts. -/
def CreateReleaseSchema : ObjSchema :=
  [("owner", .strT, true), ("repo", .strT, true), ("tag_name", .strT, true),
   ("target_commitish", .strT, false), ("name", .strT, false), ("body", .strT, false),
   ("draft", .boolT, false), ("prerelease", .boolT, false),
   ("generate_release_notes", .boolT, false)]

/-- ListReleasesSchema of operations/releases.ts. -/
def ListReleasesSchema : ObjSchema :=
  [("owner", .strT, true), ("repo", .strT, true),
   ("per_page", .numT, false), ("page", .numT, false)]

/-- DeleteReleaseSchema of operations/releases.ts. -/
def DeleteReleaseSchema : ObjSchema :=
  [("owner", .strT, true), ("repo", .strT, true), ("release_id", .numT, true)]

/-- GetReleaseAssetSchema of operations/releases.ts. -/
def GetReleaseAssetSchema : ObjSchema :=
  [("owner", .strT, true), ("repo", .strT, true), ("asset_id", .numT, true)]

/-- UploadReleaseAssetSchema of operations/releases.ts. -/
def UploadReleaseAssetSchema : ObjSchema :=
  [("owner", .strT, true), ("repo", .strT, true), ("release_id", .numT, true),
   ("name", .strT, true), ("label", .strT, false), ("content", .strT, true),
   ("content_type", .strT, true)]

/-- CreateTagSchema of operations/releases.ts. -/
def CreateTagSchema : ObjSchema :=
  [("owner", .strT, true), ("repo", .strT, true), ("ref", .strT, true),
   ("sha", .strT, true)]

/-- CreateCommitStatusSchema of operations/statuses.ts. -/
def CreateCommitStatusSchema : ObjSchema :=
  [("owner", .strT, true), ("repo", .strT, true), ("sha", .strT, true),
   ("state", .enumOf ["error", "failure", "pending", "success"], true),
   ("target_url", .strT, false), ("description", .strT, false),
   ("context", .strT, false)]

/-- GetCommitStatusesSchema of operations/statuses.ts. -/
def GetCommitStatusesSchema : ObjSchema :=
  [("owner", .strT, true), ("repo", .strT, true), ("ref", .strT, true)]

/-- GetCombinedStatusSchema of operations/statuses.ts. -/
def GetCombinedStatusSchema : ObjSchema :=
  [("owner", .strT, true), ("repo", .strT, true), ("ref", .strT, true)]

/-- GetRateLimitSchema of operations/rate_limit.ts. -/
def GetRateLimitSchema : ObjSchema := []

/-- CreateGistSchema of operations/gists.ts. -/
def CreateGistSchema : ObjSchema :=
  [("description", .strT, false), ("public", .boolT, true),
   ("files", .gistFilesT, true)]

/-- ListGistsSchema of operations/gists.ts. -/
def ListGistsSchema : ObjSchema :=
  [("since", .strT, false), ("per_page", .numT, false), ("page", .numT, false)]

/-- GetGistSchema of operations/gists.ts. -/
def GetGistSchema : ObjSchema := [("gist_id", .strT, true)]

/-- ListProjectsSchema of operations/projects.ts. -/
def ListProjectsSchema : ObjSchema :=
  [("owner", .strT, true), ("repo", .strT, true),
   ("state", .enumOf ["open", "closed", "all"], false),
   ("per_page", .numT, false), ("page", .numT, false)]

/-- CreateProjectSchema of operations/projects.ts. -/
def CreateProjectSchema : ObjSchema :=
  [("owner", .strT, true), ("repo", .strT, true), ("name", .strT, true),
   ("body", .strT, false)]

/-- ListProjectColumnsSchema of operations/projects.ts. -/
def ListProjectColumnsSchema : ObjSchema :=
  [("project_id", .numT, true), ("per_page", .numT, false), ("page", .numT, false)]

/-- CreateProjectColumnSchema of operations/projects.ts. -/
def CreateProjectColumnSchema : ObjSchema :=
  [("project_id", .numT, true), ("name", .strT, true)]

/-- CreateProjectCardSchema of operations/projects.ts. -/
def CreateProjectCardSchema : ObjSchema :=
  [("column_id", .numT, true), ("note", .strT, true)]

/-- The package-type enumeration of operations/packages.ts. -/
def packageTypeEnum : List String :=
  ["npm", "maven", "rubygems", "docker", "nuget", "container"]

/-- ListOrgPackagesSchema of operations/packages.ts. -/
def ListOrgPackagesSchema : ObjSchema :=
  [("org", .strT, true), ("package_type", .enumOf packageTypeEnum, false),
   ("visibility", .enumOf ["public", "private", "internal"], false),
   ("per_page", .numT, false), ("page", .numT, false)]

/-- ListUserPackagesSchema of operations/packages.ts. -/
def ListUserPackagesSchema : ObjSchema :=
  [("username", .strT, true), ("package_type", .enumOf packageTypeEnum, false),
   ("visibility", .enumOf ["public", "private", "internal"], false),
   ("per_page", .numT, false), ("page", .numT, false)]

/-- ListRepoPackagesSchema of operations/packages.ts. -/
def ListRepoPackagesSchema : ObjSchema :=
  [("owner", .strT, true), ("repo", .strT, true),
   ("package_type", .enumOf packageTypeEnum, false),
   ("per_page", .numT, false), ("page", .numT, false)]

/-- GetOrgPackageSchema of operations/packages.ts. -/
def GetOrgPackageSchema : ObjSchema :=
  [("org", .strT, true), ("package_type", .enumOf packageTypeEnum, true),
   ("package_name", .strT, true)]

/-- GetUserPackageSchema of operations/packages.ts. -/
def GetUserPackageSchema : ObjSchema :=
  [("username", .strT, true), ("package_type", .enumOf packageTypeEnum, true),
   ("package_name", .strT, true)]

/-- GetRepoPackageSchema of operations/packages.ts. -/
def GetRepoPackageSchema : ObjSchema :=
  [("owner", .strT, true), ("repo", .strT, true),
   ("package_type", .enumOf packageTypeEnum, true), ("package_name", .strT, true)]

/-- Modelled from the spec: SearchRepositoriesSchema of
operations/repository.ts (fields from the dispatcher destructuring). -/
def SearchRepositoriesSchema : ObjSchema :=
  [("query", .strT, true), ("page", .numT, false), ("perPage", .numT, false)]

/-- Modelled from the spec: CreateRepositoryOptionsSchema of
operations/repository.ts. -/
def CreateRepositoryOptionsSchema : ObjSchema :=
  [("name", .strT, true), ("description", .strT, false),
   ("private", .boolT, false), ("autoInit", .boolT, false)]

/-- Modelled from the spec: ForkRepositorySchema of
operations/repository.ts. -/
def ForkRepositorySchema : ObjSchema :=
  [("owner", .strT, true), ("repo", .strT, true), ("organization", .strT, false)]

/-- Modelled from the spec: CreatePullRequestSchema of
operations/pulls.ts. -/
def CreatePullRequestSchema : ObjSchema :=
  [("owner", .strT, true), ("repo", .strT, true), ("title", .strT, true),
   ("head", .strT, true), ("base", .strT, true), ("body", .strT, false),
   ("draft", .boolT, false), ("maintainer_can_modify", .boolT, false)]

/-- Modelled from the spec: CreatePullRequestReviewSchema of
operations/pulls.ts. -/
def CreatePullRequestReviewSchema : ObjSchema :=
  [("owner", .strT, true), ("repo", .strT, true), ("pull_number", .numT, true),
   ("event", .enumOf ["APPROVE", "REQUEST_CHANGES", "COMMENT"], true),
   ("body", .strT, false), ("commit_id", .strT, false),
   ("comments", .anyArrT, false)]

/-- Modelled from the spec: SubmitPullRequestReviewSchema of
operations/pulls.ts. -/
def SubmitPullRequestReviewSchema : ObjSchema :=
  [("owner", .strT, true), ("repo", .strT, true), ("pull_number", .numT, true),
   ("review_id", .numT, true),
   ("event", .enumOf ["APPROVE", "REQUEST_CHANGES", "COMMENT"], true),
   ("body", .strT, false)]

/-- Modelled from the spec: DismissPullRequestReviewSchema of
operations/pulls.ts. -/
def DismissPullRequestReviewSchema : ObjSchema :=
  [("owner", .strT, true), ("repo", .strT, true), ("pull_number", .numT, true),
   ("review_id", .numT, true), ("message", .strT, true)]

/-- Modelled from the spec: GetPullRequestDiffSchema of
operations/pulls.ts. -/
def GetPullRequestDiffSchema : ObjSchema :=
  [("owner", .strT, true), ("repo", .strT, true), ("pull_number", .numT, true)]

/-! ### Dispatcher handlers

One handler per case arm of the CallToolRequestSchema switch in
src/index.ts.  Each receives the zod-parsed record, extracts the fields
the arm destructures, awaits the operation and renders its result. -/

/-- Drop one key of a record, as rest-destructuring does. -/
def jdel (rec : JObj) (k : String) : JObj :=
  rec.filter (fun kv => !(kv.1 == k))

/-- Read an optional list-of-strings field. -/
def getStrListOpt (rec : JObj) (k : String) : Option (List String) :=
  match jget rec k with
  | some (.arrJ xs) => some (xs.filterMap (fun v =>
      match v with
      | .strJ s => some s
      | _ => none))
  | _ => none

/-- The files array of a push_files record as FileOperation values. -/
def toFileOps (rec : JObj) : List FileOperation :=
  match jget rec "files" with
  | some (.arrJ xs) => xs.map (fun x => { path := objStr x "path", content := objStr x "content" })
  | _ => []

/-- The files record of a create_gist record as name/content pairs. -/
def toGistFiles (rec : JObj) : List (String × String) :=
  match jget rec "files" with
  | some (.objJ kvs) => kvs.map (fun kv => (kv.1, objStr kv.2 "content"))
  | _ => []

/-- A template-literal interpolation of a response field: strings verbatim,
null as null, a missing field as undefined. -/
def jfieldStr (v : JValue) (k : String) : String :=
  match v with
  | .objJ f =>
      match jget f k with
      | some (.strJ s) => s
      | some .nullJ => "null"
      | some (.numJ n) => numStr n
      | some (.boolJ true) => "true"
      | some (.boolJ false) => "false"
      | some w => renderJson w
      | none => "undefined"
  | _ => "undefined"

/-- Render an operation result as the JSON text payload of a tool reply. -/
def jsonReply (v : JValue) : String := renderJson v

/-- Handler of the fork_repository arm. -/
def runForkRepository (rec : JObj) : Net String := do
  let fork ← forkRepository (getStr rec "github_pat") (getStr rec "owner")
    (getStr rec "repo") (getStrOpt rec "organization")
  Net.pure (jsonReply fork)

/-- Handler of the create_branch arm. -/
def runCreateBranch (rec : JObj) : Net String := do
  let branch ← createBranchFromRef (getStr rec "github_pat") (getStr rec "owner")
    (getStr rec "repo") (getStr rec "branch") (getStrOpt rec "from_branch")
  Net.pure (jsonReply branch)

/-- Handler of the search_repositories arm. -/
def runSearchRepositories (rec : JObj) : Net String := do
  let results ← searchRepositories (getStr rec "github_pat") (getStr rec "query")
    (getNumOpt rec "page") (getNumOpt rec "perPage")
  Net.pure (jsonReply results)

/-- Handler of the create_repository arm. -/
def runCreateRepository (rec : JObj) : Net String := do
  let result ← createRepository (getStr rec "github_pat") (jdel rec "github_pat")
  Net.pure (jsonReply result)

/-- Handler of the get_file_contents arm, formatting the directory or the
single-file summary text. -/
def runGetFileContents (rec : JObj) : Net String := do
  let contents ← getFileContents
    { github_pat := getStr rec "github_pat", owner := getStr rec "owner",
      repo := getStr rec "repo", path := getStr rec "path",
      encoded := getBoolOpt rec "encoded", branch := getStrOpt rec "branch" }
  match contents with
  | .arrJ entries =>
      Net.pure ("Directory Contents:\n" ++
        String.intercalate "\n" (entries.map (fun c =>
          "- " ++ jfieldStr c "path" ++ " (" ++ jfieldStr c "type" ++ ", " ++
          (if jfieldStr c "type" = "file" then jfieldStr c "size" ++ " bytes" else "") ++ ")")))
  | _ =>
      Net.pure ("File Name: " ++ jfieldStr contents "name" ++
        "\nFile Path: " ++ jfieldStr contents "path" ++
        "\nFile SHA: " ++ jfieldStr contents "sha" ++
        "\nFile Size: " ++ jfieldStr contents "size" ++
        "\nFile URL: " ++ jfieldStr contents "url" ++
        "\nFile HTML URL: " ++ jfieldStr contents "html_url" ++
        "\nFile Download URL: " ++ jfieldStr contents "download_url" ++
        "\nFile Type: " ++ jfieldStr contents "type" ++
        "\nFile Encoding: " ++ jfieldStr contents "encoding" ++
        "\nFile Content:\n```\n" ++ jfieldStr contents "content" ++ "\n```\n")

/-- Handler of the create_or_update_file arm. -/
def runCreateOrUpdateFile (rec : JObj) : Net String := do
  let result ← createOrUpdateFile (getStr rec "github_pat") (getStr rec "owner")
    (getStr rec "repo") (getStr rec "path") (getStr rec "content")
    (getStr rec "message") (getStr rec "branch") (getStrOpt rec "sha")
  Net.pure (jsonReply result)

/-- Handler of the push_files arm. -/
def runPushFiles (rec : JObj) : Net String := do
  let result ← pushFiles (getStr rec "github_pat") (getStr rec "owner")
    (getStr rec "repo") (getStr rec "branch") (toFileOps rec) (getStr rec "message")
  Net.pure (jsonReply result)

/-- Handler of the create_issue arm. -/
def runCreateIssue (rec : JObj) : Net String := do
  let issue ← createIssue (getStr rec "github_pat") (getStr rec "owner")
    (getStr rec "repo")
    { title := getStr rec "title", body := getStrOpt rec "body",
      assignees := getStrListOpt rec "assignees", milestone := getNumOpt rec "milestone",
      labels := getStrListOpt rec "labels" }
  Net.pure (jsonReply issue)

/-- Handler of the create_pull_request arm. -/
def runCreatePullRequest (rec : JObj) : Net String := do
  let pullRequest ← createPullRequest (getStr rec "github_pat") (jdel rec "github_pat")
  Net.pure (jsonReply pullRequest)

/-- Handler of the search_code arm. -/
def runSearchCode (rec : JObj) : Net String := do
  let results ← searchCode (getStr rec "github_pat")
    { q := getStr rec "q", order := getStrOpt rec "order",
      page := getNumOpt rec "page", per_page := getNumOpt rec "per_page" }
  Net.pure (jsonReply results)

/-- Handler of the search_issues arm. -/
def runSearchIssues (rec : JObj) : Net String := do
  let results ← searchIssues (getStr rec "github_pat")
    { q := getStr rec "q", order := getStrOpt rec "order",
      page := getNumOpt rec "page", per_page := getNumOpt rec "per_page",
      sort := getStrOpt rec "sort" }
  Net.pure (jsonReply results)

/-- Handler of the search_users arm. -/
def runSearchUsers (rec : JObj) : Net String := do
  let results ← searchUsers (getStr rec "github_pat")
    { q := getStr rec "q", order := getStrOpt rec "order",
      page := getNumOpt rec "page", per_page := getNumOpt rec "per_page",
      sort := getStrOpt rec "sort" }
  Net.pure (jsonReply results)

/-- Handler of the list_issues arm. -/
def runListIssues (rec : JObj) : Net String := do
  let result ← listIssues (getStr rec "github_pat") (getStr rec "owner")
    (getStr rec "repo")
    { direction := getStrOpt rec "direction", labels := getStrListOpt rec "labels",
      page := getNumOpt rec "page", per_page := getNumOpt rec "per_page",
      since := getStrOpt rec "since", sort := getStrOpt rec "sort",
      state := getStrOpt rec "state" }
  Net.pure (jsonReply result)

/-- Handler of the update_issue arm. -/
def runUpdateIssue (rec : JObj) : Net String := do
  let result ← updateIssue (getStr rec "github_pat") (getStr rec "owner")
    (getStr rec "repo") (getNum rec "issue_number")
    { title := getStrOpt rec "title", body := getStrOpt rec "body",
      assignees := getStrListOpt rec "assignees", milestone := getNumOpt rec "milestone",
      labels := getStrListOpt rec "labels", state := getStrOpt rec "state" }
  Net.pure (jsonReply result)

/-- Handler of the add_issue_comment arm. -/
def runAddIssueComment (rec : JObj) : Net String := do
  let result ← addIssueComment (getStr rec "github_pat") (getStr rec "owner")
    (getStr rec "repo") (getNum rec "issue_number") (getStr rec "body")
  Net.pure (jsonReply result)

/-- Handler of the list_commits arm. -/
def runListCommits (rec : JObj) : Net String := do
  let results ← listCommits (getStr rec "github_pat") (getStr rec "owner")
    (getStr rec "repo") (getNumOpt rec "page") (getNumOpt rec "perPage")
    (getStrOpt rec "sha")
  Net.pure (jsonReply results)

/-- Handler of the get_issue arm. -/
def runGetIssue (rec : JObj) : Net String := do
  let issue ← getIssue (getStr rec "github_pat") (getStr rec "owner")
    (getStr rec "repo") (getNum rec "issue_number")
  Net.pure (jsonReply issue)

/-- Handler of the create_release arm. -/
def runCreateRelease (rec : JObj) : Net String := do
  let result ← createRelease (getStr rec "github_pat") (getStr rec "owner")
    (getStr rec "repo")
    { tag_name := getStr rec "tag_name",
      target_commitish := getStrOpt rec "target_commitish",
      name := getStrOpt rec "name", body := getStrOpt rec "body",
      draft := getBoolOpt rec "draft", prerelease := getBoolOpt rec "prerelease",
      generate_release_notes := getBoolOpt rec "generate_release_notes" }
  Net.pure (jsonReply result)

/-- Handler of the list_releases arm. -/
def runListReleases (rec : JObj) : Net String := do
  let result ← listReleases (getStr rec "github_pat") (getStr rec "owner")
    (getStr rec "repo") (getNumOpt rec "per_page") (getNumOpt rec "page")
  Net.pure (jsonReply result)

/-- Handler of the delete_release arm. -/
def runDeleteRelease (rec : JObj) : Net String := do
  let _ ← deleteRelease (getStr rec "github_pat") (getStr rec "owner")
    (getStr rec "repo") (getNum rec "release_id")
  Net.pure (jsonReply (.objJ [("success", .boolJ true)]))

/-- Handler of the get_release_asset arm. -/
def runGetReleaseAsset (rec : JObj) : Net String := do
  let result ← getReleaseAsset (getStr rec "github_pat") (getStr rec "owner")
    (getStr rec "repo") (getNum rec "asset_id")
  Net.pure (jsonReply result)

/-- Handler of the upload_release_asset arm. -/
def runUploadReleaseAsset (rec : JObj) : Net String := do
  let result ← uploadReleaseAsset (getStr rec "github_pat") (getStr rec "owner")
    (getStr rec "repo") (getNum rec "release_id") (getStr rec "name")
    (getStr rec "content") (getStr rec "content_type") (getStrOpt rec "label")
  Net.pure (jsonReply result)

/-- Handler of the create_tag arm. -/
def runCreateTag (rec : JObj) : Net String := do
  let result ← createTag (getStr rec "github_pat") (getStr rec "owner")
    (getStr rec "repo") (getStr rec "ref") (getStr rec "sha")
  Net.pure (jsonReply result)

/-- Handler of the create_pull_request_review arm. -/
def runCreatePullRequestReview (rec : JObj) : Net String := do
  let result ← createPullRequestReview (getStr rec "github_pat") (getStr rec "owner")
    (getStr rec "repo") (getNum rec "pull_number")
    (jdel (jdel (jdel (jdel rec "github_pat") "owner") "repo") "pull_number")
  Net.pure (jsonReply result)

/-- Handler of the submit_pull_request_review arm. -/
def runSubmitPullRequestReview (rec : JObj) : Net String := do
  let result ← submitPullRequestReview (getStr rec "github_pat") (getStr rec "owner")
    (getStr rec "repo") (getNum rec "pull_number") (getNum rec "review_id")
    (getStr rec "event") (getStrOpt rec "body")
  Net.pure (jsonReply result)

/-- Handler of the dismiss_pull_request_review arm. -/
def runDismissPullRequestReview (rec : JObj) : Net String := do
  let result ← dismissPullRequestReview (getStr rec "github_pat") (getStr rec "owner")
    (getStr rec "repo") (getNum rec "pull_number") (getNum rec "review_id")
    (getStr rec "message")
  Net.pure (jsonReply result)

/-- Handler of the create_commit_status arm. -/
def runCreateCommitStatus (rec : JObj) : Net String := do
  let result ← createCommitStatus (getStr rec "github_pat") (getStr rec "owner")
    (getStr rec "repo") (getStr rec "sha") (getStr rec "state")
    (getStrOpt rec "target_url") (getStrOpt rec "description") (getStrOpt rec "context")
  Net.pure (jsonReply result)

/-- Handler of the get_commit_statuses arm. -/
def runGetCommitStatuses (rec : JObj) : Net String := do
  let result ← getCommitStatuses (getStr rec "github_pat") (getStr rec "owner")
    (getStr rec "repo") (getStr rec "ref")
  Net.pure (jsonReply result)

/-- Handler of the get_combined_status arm. -/
def runGetCombinedStatus (rec : JObj) : Net String := do
  let result ← getCombinedStatus (getStr rec "github_pat") (getStr rec "owner")
    (getStr rec "repo") (getStr rec "ref")
  Net.pure (jsonReply result)

/-- Handler of the get_rate_limit arm. -/
def runGetRateLimit (rec : JObj) : Net String := do
  let result ← getRateLimit (getStr rec "github_pat")
  Net.pure (jsonReply result)

/-- Handler of the create_gist arm. -/
def runCreateGist (rec : JObj) : Net String := do
  let result ← createGist (getStr rec "github_pat") (getStrOpt rec "description")
    ((getBoolOpt rec "public").getD false) (toGistFiles rec)
  Net.pure (jsonReply result)

/-- Handler of the list_gists arm. -/
def runListGists (rec : JObj) : Net String := do
  let result ← listGists (getStr rec "github_pat") (getStrOpt rec "since")
    (getNumOpt rec "per_page") (getNumOpt rec "page")
  Net.pure (jsonReply result)

/-- Handler of the get_gist arm. -/
def runGetGist (rec : JObj) : Net String := do
  let result ← getGist (getStr rec "github_pat") (getStr rec "gist_id")
  Net.pure (jsonReply result)

/-- Handler of the list_projects arm. -/
def runListProjects (rec : JObj) : Net String := do
  let result ← listProjects (getStr rec "github_pat") (getStr rec "owner")
    (getStr rec "repo") (getStrOpt rec "state") (getNumOpt rec "per_page")
    (getNumOpt rec "page")
  Net.pure (jsonReply result)

/-- Handler of the create_project arm. -/
def runCreateProject (rec : JObj) : Net String := do
  let result ← createProject (getStr rec "github_pat") (getStr rec "owner")
    (getStr rec "repo") (getStr rec "name") (getStrOpt rec "body")
  Net.pure (jsonReply result)

/-- Handler of the list_project_columns arm. -/
def runListProjectColumns (rec : JObj) : Net String := do
  let result ← listProjectColumns (getStr rec "github_pat") (getNum rec "project_id")
    (getNumOpt rec "per_page") (getNumOpt rec "page")
  Net.pure (jsonReply result)

/-- Handler of the create_project_column arm. -/
def runCreateProjectColumn (rec : JObj) : Net String := do
  let result ← createProjectColumn (getStr rec "github_pat") (getNum rec "project_id")
    (getStr rec "name")
  Net.pure (jsonReply result)

/-- Handler of the create_project_card arm. -/
def runCreateProjectCard (rec : JObj) : Net String := do
  let result ← createProjectCard (getStr rec "github_pat") (getNum rec "column_id")
    (getStr rec "note")
  Net.pure (jsonReply result)

/-- Handler of the list_org_packages arm. -/
def runListOrgPackages (rec : JObj) : Net String := do
  let result ← listOrgPackages (getStr rec "github_pat") (getStr rec "org")
    (getStrOpt rec "package_type") (getStrOpt rec "visibility")
    (getNumOpt rec "per_page") (getNumOpt rec "page")
  Net.pure (jsonReply result)

/-- Handler of the list_user_packages arm. -/
def runListUserPackages (rec : JObj) : Net String := do
  let result ← listUserPackages (getStr rec "github_pat") (getStr rec "username")
    (getStrOpt rec "package_type") (getStrOpt rec "visibility")
    (getNumOpt rec "per_page") (getNumOpt rec "page")
  Net.pure (jsonReply result)

/-- Handler of the list_repo_packages arm. -/
def runListRepoPackages (rec : JObj) : Net String := do
  let result ← listRepoPackages (getStr rec "github_pat") (getStr rec "owner")
    (getStr rec "repo") (getStrOpt rec "package_type")
    (getNumOpt rec "per_page") (getNumOpt rec "page")
  Net.pure (jsonReply result)

/-- Handler of the get_org_package arm. -/
def runGetOrgPackage (rec : JObj) : Net String := do
  let result ← getOrgPackage (getStr rec "github_pat") (getStr rec "org")
    (getStr rec "package_type") (getStr rec "package_name")
  Net.pure (jsonReply result)

/-- Handler of the get_user_package arm. -/
def runGetUserPackage (rec : JObj) : Net String := do
  let result ← getUserPackage (getStr rec "github_pat") (getStr rec "username")
    (getStr rec "package_type") (getStr rec "package_name")
  Net.pure (jsonReply result)

/-- Handler of the get_repo_package arm. -/
def runGetRepoPackage (rec : JObj) : Net String := do
  let result ← getRepoPackage (getStr rec "github_pat") (getStr rec "owner")
    (getStr rec "repo") (getStr rec "package_type") (getStr rec "package_name")
  Net.pure (jsonReply result)

/-- Handler of the get_pull_request_diff arm: the raw diff text is the
reply payload. -/
def runGetPullRequestDiff (rec : JObj) : Net String := do
  let result ← getPullRequestDiff (getStr rec "github_pat") (getStr rec "owner")
    (getStr rec "repo") (getNum rec "pull_number")
  match result with
  | .strJ s => Net.pure s
  | v => Net.pure (renderJson v)

/-! ### The request handler of src/index.ts -/

/-- One registered tool: its name, its public input schema (the dispatcher
validates the schema extended with github_pat) and its case-arm handler. -/
structure ToolDef where
  name : String
  schema : ObjSchema
  run : JObj → Net String

/-- The registered tools, in the order of the ListTools declaration and
the dispatch switch of src/index.ts. -/
def registry : List ToolDef :=
  [⟨"create_or_update_file", CreateOrUpdateFileSchema, runCreateOrUpdateFile⟩,
   ⟨"search_repositories", SearchRepositoriesSchema, runSearchRepositories⟩,
   ⟨"create_repository", CreateRepositoryOptionsSchema, runCreateRepository⟩,
   ⟨"get_file_contents", GetFileContentsSchema, runGetFileContents⟩,
   ⟨"push_files", PushFilesSchema, runPushFiles⟩,
   ⟨"create_issue", CreateIssueSchema, runCreateIssue⟩,
   ⟨"create_pull_request", CreatePullRequestSchema, runCreatePullRequest⟩,
   ⟨"fork_repository", ForkRepositorySchema, runForkRepository⟩,
   ⟨"create_branch", CreateBranchSchema, runCreateBranch⟩,
   ⟨"list_commits", ListCommitsSchema, runListCommits⟩,
   ⟨"list_issues", ListIssuesOptionsSchema, runListIssues⟩,
   ⟨"update_issue", UpdateIssueOptionsSchema, runUpdateIssue⟩,
   ⟨"add_issue_comment", IssueCommentSchema, runAddIssueComment⟩,
   ⟨"search_code", SearchCodeSchema, runSearchCode⟩,
   ⟨"search_issues", SearchIssuesSchema, runSearchIssues⟩,
   ⟨"search_users", SearchUsersSchema, runSearchUsers⟩,
   ⟨"get_issue", GetIssueSchema, runGetIssue⟩,
   ⟨"create_release", CreateReleaseSchema, runCreateRelease⟩,
   ⟨"list_releases", ListReleasesSchema, runListReleases⟩,
   ⟨"delete_release", DeleteReleaseSchema, runDeleteRelease⟩,
   ⟨"get_release_asset", GetReleaseAssetSchema, runGetReleaseAsset⟩,
   ⟨"upload_release_asset", UploadReleaseAssetSchema, runUploadReleaseAsset⟩,
   ⟨"create_tag", CreateTagSchema, runCreateTag⟩,
   ⟨"create_pull_request_review", CreatePullRequestReviewSchema, runCreatePullRequestReview⟩,
   ⟨"submit_pull_request_review", SubmitPullRequestReviewSchema, runSubmitPullRequestReview⟩,
   ⟨"dismiss_pull_request_review", DismissPullRequestReviewSchema, runDismissPullRequestReview⟩,
   ⟨"create_commit_status", CreateCommitStatusSchema, runCreateCommitStatus⟩,
   ⟨"get_commit_statuses", GetCommitStatusesSchema, runGetCommitStatuses⟩,
   ⟨"get_combined_status", GetCombinedStatusSchema, runGetCombinedStatus⟩,
   ⟨"get_rate_limit", GetRateLimitSchema, runGetRateLimit⟩,
   ⟨"create_gist", CreateGistSchema, runCreateGist⟩,
   ⟨"list_gists", ListGistsSchema, runListGists⟩,
   ⟨"get_gist", GetGistSchema, runGetGist⟩,
   ⟨"list_projects", ListProjectsSchema, runListProjects⟩,
   ⟨"create_project", CreateProjectSchema, runCreateProject⟩,
   ⟨"list_project_columns", ListProjectColumnsSchema, runListProjectColumns⟩,
   ⟨"create_project_column", CreateProjectColumnSchema, runCreateProjectColumn⟩,
   ⟨"create_project_card", CreateProjectCardSchema, runCreateProjectCard⟩,
   ⟨"list_org_packages", ListOrgPackagesSchema, runListOrgPackages⟩,
   ⟨"list_user_packages", ListUserPackagesSchema, runListUserPackages⟩,
   ⟨"list_repo_packages", ListRepoPackagesSchema, runListRepoPackages⟩,
   ⟨"get_org_package", GetOrgPackageSchema, runGetOrgPackage⟩,
   ⟨"get_user_package", GetUserPackageSchema, runGetUserPackage⟩,
   ⟨"get_repo_package", GetRepoPackageSchema, runGetRepoPackage⟩,
   ⟨"get_pull_request_diff", GetPullRequestDiffSchema, runGetPullRequestDiff⟩]

/-- The process environment state read by the credential fallback. -/
structure Env where
  GITHUB_PAT : Option String
  GITHUB_PERSONAL_ACCESS_TOKEN : Option String

/-- JavaScript whitespace, as String.prototype.trim strips it (the
common subset: space, tab, newline, carriage return, form feed). -/
def isJsSpace (c : Char) : Bool :=
  c = ' ' || c = '\t' || c = '\n' || c = '\r' || c = '\x0c'

/-- JavaScript String.prototype.trim: strip whitespace from both ends. -/
def jsTrim (s : String) : String :=
  String.mk (((s.data.dropWhile isJsSpace).reverse.dropWhile isJsSpace).reverse)

/-- A set, non-blank environment variable, as the checks
`v != null && v.trim() !== ""` test. -/
def envSet : Option String → Bool
  | some v => jsTrim v != ""
  | none => false

/-- Credential resolution of src/index.ts lines 703 to 711: keep a truthy
explicit github_pat argument; otherwise inject GITHUB_PAT, then
GITHUB_PERSONAL_ACCESS_TOKEN, when set and non-blank; otherwise fail. -/
def resolveArgsPat (env : Env) (rec : JObj) : Except GHException JObj :=
  if jtruthy (jget rec "github_pat") then .ok rec
  else if envSet env.GITHUB_PAT then
    .ok (jset rec "github_pat" (.strJ (env.GITHUB_PAT.getD "")))
  else if envSet env.GITHUB_PERSONAL_ACCESS_TOKEN then
    .ok (jset rec "github_pat" (.strJ (env.GITHUB_PERSONAL_ACCESS_TOKEN.getD "")))
  else .error (.jsError "GitHub PAT is required")

/-- The parsed record a zod schema returns: the declared keys that are
present, in schema order (unknown keys stripped). -/
def zodStrip (s : ObjSchema) (rec : JObj) : JObj :=
  s.filterMap (fun fs => (jget rec fs.1).map (fun v => (fs.1, v)))

/-- The dispatch switch: look the tool up, parse the record against its
extended schema, and run the case arm; an unrecognized name throws. -/
def dispatch (name : String) (rec : JObj) : Net String :=
  match registry.find? (fun t => t.name == name) with
  | none => throwNet (.jsError ("Unknown tool: " ++ name))
  | some t =>
      match zodCheck (withPat t.schema) rec with
      | .error issues => throwNet (.zodError issues)
      | .ok _ => t.run (zodStrip (withPat t.schema) rec)

/-- The body of the CallToolRequestSchema handler before its catch:
require arguments, resolve the credential, dispatch. -/
def callTool (env : Env) (name : String) (args : Option JObj) : Net String :=
  match args with
  | none => throwNet (.jsError "Arguments are required")
  | some rec =>
      match resolveArgsPat env rec with
      | .error e => throwNet e
      | .ok rec1 => dispatch name rec1

/-- The catch clause of the handler: a ZodError becomes an Invalid input
message, a GitHub error is formatted by kind, anything else is rethrown
with its own message. -/
def wrapError : GHException → String
  | .zodError issues => "Invalid input: " ++ renderJson (.arrJ (issues.map JValue.strJ))
  | .ghError e => formatGitHubError e
  | .jsError m => m

/-- One complete tool invocation: the final result (a text payload or a
single error message) together with the ordered trace of issued HTTP
requests. -/
def runTool (env : Env) (oracle : Oracle) (name : String) (args : Option JObj) :
    Except String String × List HttpRequest :=
  match callTool env name args oracle [] with
  | (.ok v, trace) => (.ok v, trace)
  | (.error e, trace) => (.error (wrapError e), trace)

/-! ### Lemmas and claim theorems -/

/-- Monadic bind of Net unfolded, for rewriting do-notation. -/
theorem net_bind_def {α β : Type} (x : Net α) (f : α → Net β) : (x >>= f) = Net.bind x f := rfl

/-- Monadic pure of Net unfolded. -/
theorem net_pure_def {α : Type} (a : α) : (pure a : Net α) = Net.pure a := rfl

/-- A minimal well-formed git-reference response body. -/
def refBodyJ (ref sha : String) : JValue :=
  .objJ [("ref", .strJ ref), ("object", .objJ [("sha", .strJ sha)])]

/-- C1 counterexample: create_branch without from_branch where the main
probe fails with 404 and the master probe fails with 401.  The surfaced
result is the raw classified authentication error of the master probe,
not a ResourceNotFoundError, refuting the claim that when both probes
fail the result is ResourceNotFoundError rather than the raw underlying
error. -/
theorem claim1_counterexample :
    runTool ⟨none, none⟩
      (fun n => if n = 0 then ⟨404, [], .objJ [("message", .strJ "Not Found")]⟩
                else ⟨401, [], .objJ [("message", .strJ "Bad credentials")]⟩)
      "create_branch"
      (some [("github_pat", .strJ "t"), ("owner", .strJ "o"), ("repo", .strJ "r"),
             ("branch", .strJ "b")]) =
    (.error "Authentication Failed: Bad credentials",
     [⟨"GET", "https://api.github.com/repos/o/r/git/refs/heads/main", none, [], "t"⟩,
      ⟨"GET", "https://api.github.com/repos/o/r/git/refs/heads/master", none, [], "t"⟩]) := by
  rfl

/-- C1 (amended): createBranchFromRef without a source branch probes
refs/heads/main first; when that probe succeeds no master probe is made
and the branch is created from its sha; when the main probe fails the
master ref is probed, and when it also fails its raw classified error is
the result (a ResourceNotFoundError only when the master probe itself
returned 404), with no further request issued. -/
theorem claim1_default_branch_probe (pat owner repo nb ref0 sha0 ref1 sha1 : String)
    (r0 r1 : HttpResponse)
    (h0 : ¬(200 ≤ r0.status ∧ r0.status < 300))
    (h1 : ¬(200 ≤ r1.status ∧ r1.status < 300)) :
    createBranchFromRef pat owner repo nb none
      (fun n => if n = 0 then ⟨200, [], refBodyJ ref0 sha0⟩
                else ⟨201, [], refBodyJ ref1 sha1⟩) [] =
    (.ok (refBodyJ ref1 sha1),
     [⟨"GET", repoUrl owner repo "/git/refs/heads/main", none, [], pat⟩,
      ⟨"POST", repoUrl owner repo "/git/refs",
        some (.jsonB (.objJ [("ref", .strJ ("refs/heads/" ++ nb)), ("sha", .strJ sha0)])),
        [], pat⟩]) ∧
    createBranchFromRef pat owner repo nb none
      (fun n => if n = 0 then r0 else r1) [] =
    (.error (.ghError (createGitHubError r1.status r1.rheaders r1.rbody)),
     [⟨"GET", repoUrl owner repo "/git/refs/heads/main", none, [], pat⟩,
      ⟨"GET", repoUrl owner repo "/git/refs/heads/master", none, [], pat⟩]) := by
  constructor
  · rfl
  · simp [createBranchFromRef, getDefaultBranchSHA, tryCatchNet, githubRequest,
      net_bind_def, net_pure_def, Net.bind, Net.pure, parseResp, throwNet, h0, h1]

/-- Witness for C1 (amended) at concrete inputs. -/
theorem claim1_default_branch_probe_witness :
    createBranchFromRef "t" "o" "r" "b" none
      (fun n => if n = 0 then ⟨200, [], refBodyJ "refs/heads/main" "s0"⟩
                else ⟨201, [], refBodyJ "refs/heads/b" "s1"⟩) [] =
    (.ok (refBodyJ "refs/heads/b" "s1"),
     [⟨"GET", repoUrl "o" "r" "/git/refs/heads/main", none, [], "t"⟩,
      ⟨"POST", repoUrl "o" "r" "/git/refs",
        some (.jsonB (.objJ [("ref", .strJ ("refs/heads/" ++ "b")), ("sha", .strJ "s0")])),
        [], "t"⟩]) ∧
    createBranchFromRef "t" "o" "r" "b" none
      (fun n => if n = 0 then ⟨404, [], .nullJ⟩ else ⟨403, [], .nullJ⟩) [] =
    (.error (.ghError (createGitHubError 403 [] .nullJ)),
     [⟨"GET", repoUrl "o" "r" "/git/refs/heads/main", none, [], "t"⟩,
      ⟨"GET", repoUrl "o" "r" "/git/refs/heads/master", none, [], "t"⟩]) :=
  claim1_default_branch_probe "t" "o" "r" "b" "refs/heads/main" "s0" "refs/heads/b" "s1"
    ⟨404, [], .nullJ⟩ ⟨403, [], .nullJ⟩ (by decide) (by decide)

/-- The ref-fetch request a pushFiles run issues first. -/
def pushReq0 (pat owner repo branch : String) : HttpRequest :=
  ⟨"GET", repoUrl owner repo ("/git/refs/heads/" ++ branch), none, [], pat⟩

/-- The tree-creation request a pushFiles run issues second. -/
def pushReq1 (pat owner repo : String) (files : List FileOperation) (baseSha : String) :
    HttpRequest :=
  ⟨"POST", repoUrl owner repo "/git/trees",
   some (.jsonB (.objJ
     [("tree", .arrJ (files.map (fun file => JValue.objJ
        [("path", .strJ file.path), ("mode", .strJ "100644"),
         ("type", .strJ "blob"), ("content", .strJ file.content)]))),
      ("base_tree", .strJ baseSha)])),
   [], pat⟩

/-- The commit-creation request a pushFiles run issues third. -/
def pushReq2 (pat owner repo message treeSha parentSha : String) : HttpRequest :=
  ⟨"POST", repoUrl owner repo "/git/commits",
   some (.jsonB (.objJ
     [("message", .strJ message), ("tree", .strJ treeSha),
      ("parents", .arrJ [JValue.strJ parentSha])])),
   [], pat⟩

/-- The ref-update request a pushFiles run issues fourth (the path is
built as /git/refs/ plus the heads/branch ref argument). -/
def pushReq3 (pat owner repo branch commitSha : String) : HttpRequest :=
  ⟨"PATCH", repoUrl owner repo ("/git/refs/" ++ ("heads/" ++ branch)),
   some (.jsonB (.objJ [("sha", .strJ commitSha), ("force", .boolJ true)])),
   [], pat⟩

/-- C2: pushFiles issues exactly four calls in order (fetch ref, create
tree, create commit, update ref) whatever the number of files; when the
k-th call fails (k = 1, 2, 3, 4) the run stops there with the classified
error of that call, the earlier requests having been issued unchanged and
no later request attempted. -/
theorem claim2_push_files_sequence (pat owner repo branch message : String)
    (files : List FileOperation) (ref0 s0 s1 s2 ref3 s3 : String)
    (r : HttpResponse) (hr : ¬(200 ≤ r.status ∧ r.status < 300)) :
    pushFiles pat owner repo branch files message
      (fun n => if n = 0 then ⟨200, [], refBodyJ ref0 s0⟩
                else if n = 1 then ⟨201, [], .objJ [("sha", .strJ s1)]⟩
                else if n = 2 then ⟨201, [], .objJ [("sha", .strJ s2)]⟩
                else ⟨200, [], refBodyJ ref3 s3⟩) [] =
    (.ok (refBodyJ ref3 s3),
     [pushReq0 pat owner repo branch, pushReq1 pat owner repo files s0,
      pushReq2 pat owner repo message s1 s0, pushReq3 pat owner repo branch s2]) ∧
    pushFiles pat owner repo branch files message (fun _ => r) [] =
    (.error (.ghError (createGitHubError r.status r.rheaders r.rbody)),
     [pushReq0 pat owner repo branch]) ∧
    pushFiles pat owner repo branch files message
      (fun n => if n = 0 then ⟨200, [], refBodyJ ref0 s0⟩ else r) [] =
    (.error (.ghError (createGitHubError r.status r.rheaders r.rbody)),
     [pushReq0 pat owner repo branch, pushReq1 pat owner repo files s0]) ∧
    pushFiles pat owner repo branch files message
      (fun n => if n = 0 then ⟨200, [], refBodyJ ref0 s0⟩
                else if n = 1 then ⟨201, [], .objJ [("sha", .strJ s1)]⟩
                else r) [] =
    (.error (.ghError (createGitHubError r.status r.rheaders r.rbody)),
     [pushReq0 pat owner repo branch, pushReq1 pat owner repo files s0,
      pushReq2 pat owner repo message s1 s0]) ∧
    pushFiles pat owner repo branch files message
      (fun n => if n = 0 then ⟨200, [], refBodyJ ref0 s0⟩
                else if n = 1 then ⟨201, [], .objJ [("sha", .strJ s1)]⟩
                else if n = 2 then ⟨201, [], .objJ [("sha", .strJ s2)]⟩
                else r) [] =
    (.error (.ghError (createGitHubError r.status r.rheaders r.rbody)),
     [pushReq0 pat owner repo branch, pushReq1 pat owner repo files s0,
      pushReq2 pat owner repo message s1 s0, pushReq3 pat owner repo branch s2]) := by
  refine ⟨rfl, ?_, ?_, ?_, ?_⟩ <;>
    simp [pushFiles, createTree, createCommit, updateReference, githubRequest,
      net_bind_def, net_pure_def, Net.bind, Net.pure, parseResp, throwNet, hr,
      refBodyJ, refSha, objStr, getStr, jget, checkResp, isStr, repoUrl,
      GitHubReferenceFields, GitHubTreeFields, GitHubCommitFields, List.all,
      pushReq0, pushReq1, pushReq2, pushReq3]

/-- Witness for C2 at a concrete three-file push. -/
theorem claim2_push_files_sequence_witness :
    (pushFiles "t" "o" "r" "main" [⟨"a.txt", "A"⟩, ⟨"b.txt", "B"⟩, ⟨"c.txt", "C"⟩] "msg"
      (fun n => if n = 0 then ⟨200, [], refBodyJ "refs/heads/main" "s0"⟩
                else if n = 1 then ⟨201, [], .objJ [("sha", .strJ "s1")]⟩
                else if n = 2 then ⟨201, [], .objJ [("sha", .strJ "s2")]⟩
                else ⟨200, [], refBodyJ "refs/heads/main" "s3"⟩) []).2 =
    [pushReq0 "t" "o" "r" "main",
     pushReq1 "t" "o" "r" [⟨"a.txt", "A"⟩, ⟨"b.txt", "B"⟩, ⟨"c.txt", "C"⟩] "s0",
     pushReq2 "t" "o" "r" "msg" "s1" "s0", pushReq3 "t" "o" "r" "main" "s2"] ∧
    (pushFiles "t" "o" "r" "main" [⟨"a.txt", "A"⟩, ⟨"b.txt", "B"⟩, ⟨"c.txt", "C"⟩] "msg"
      (fun n => if n = 0 then ⟨200, [], refBodyJ "refs/heads/main" "s0"⟩
                else if n = 1 then ⟨201, [], .objJ [("sha", .strJ "s1")]⟩
                else ⟨500, [], .nullJ⟩) []).2 =
    [pushReq0 "t" "o" "r" "main",
     pushReq1 "t" "o" "r" [⟨"a.txt", "A"⟩, ⟨"b.txt", "B"⟩, ⟨"c.txt", "C"⟩] "s0",
     pushReq2 "t" "o" "r" "msg" "s1" "s0"] := by
  have h := claim2_push_files_sequence "t" "o" "r" "main" "msg"
    [⟨"a.txt", "A"⟩, ⟨"b.txt", "B"⟩, ⟨"c.txt", "C"⟩]
    "refs/heads/main" "s0" "s1" "s2" "refs/heads/main" "s3"
    ⟨500, [], .nullJ⟩ (by decide)
  exact ⟨by rw [h.1], by rw [h.2.2.2.1]⟩

/-- A well-formed author object of a create/update-file commit. -/
def sampleAuthorObj : JValue :=
  .objJ [("name", .strJ "a"), ("email", .strJ "e"), ("date", .strJ "d")]

/-- A well-formed PUT-response body for create_or_update_file. -/
def samplePutResp : JValue :=
  .objJ [("content", .nullJ),
         ("commit", .objJ
           [("sha", .strJ "c"), ("node_id", .strJ "n"), ("url", .strJ "u"),
            ("html_url", .strJ "h"), ("author", sampleAuthorObj),
            ("committer", sampleAuthorObj), ("message", .strJ "m"),
            ("tree", .objJ [("sha", .strJ "ts"), ("url", .strJ "tu")]),
            ("parents", .arrJ [])])]

/-- C5: createOrUpdateFile without an explicit sha swallows any failure of
the preliminary revision probe, whatever its status (any error kind), and
proceeds to issue the PUT request whose body carries message, content and
branch but no sha. -/
theorem claim5_update_probe_lenient (pat owner repo path content message branch : String)
    (r : HttpResponse) (hb : branch ≠ "")
    (hr : ¬(200 ≤ r.status ∧ r.status < 300)) :
    createOrUpdateFile pat owner repo path content message branch none
      (fun n => if n = 0 then r else ⟨200, [], samplePutResp⟩) [] =
    (.ok samplePutResp,
     [⟨"GET", repoUrl owner repo ("/contents/" ++ path) ++ "?ref=" ++ branch,
       none, [], pat⟩,
      ⟨"PUT", repoUrl owner repo ("/contents/" ++ path),
       some (.jsonB (.objJ
         [("message", .strJ message), ("content", .strJ (utf8ToBase64 content)),
          ("branch", .strJ branch)])),
       [], pat⟩]) := by
  have hbt : (branch != "") = true := by simpa using hb
  simp [createOrUpdateFile, getFileContents, parseContent, tryCatchNet,
    githubRequest, net_bind_def, net_pure_def, Net.bind, Net.pure, parseResp,
    throwNet, hr, hbt, strTruthy, samplePutResp, sampleAuthorObj,
    GitHubCreateUpdateFileResponseFields, GitHubAuthorFields,
    GitHubFileContentFields, checkResp, orNullP, isStr, isNum, isBool, isAny,
    isArrOf, List.all, jget, repoUrl]

/-- Witness for C5 at a probe failing with status 403. -/
theorem claim5_update_probe_lenient_witness :
    createOrUpdateFile "t" "o" "r" "p.txt" "hi" "m" "b" none
      (fun n => if n = 0 then ⟨403, [], .nullJ⟩ else ⟨200, [], samplePutResp⟩) [] =
    (.ok samplePutResp,
     [⟨"GET", repoUrl "o" "r" ("/contents/" ++ "p.txt") ++ "?ref=" ++ "b",
       none, [], "t"⟩,
      ⟨"PUT", repoUrl "o" "r" ("/contents/" ++ "p.txt"),
       some (.jsonB (.objJ
         [("message", .strJ "m"), ("content", .strJ (utf8ToBase64 "hi")),
          ("branch", .strJ "b")])),
       [], "t"⟩]) :=
  claim5_update_probe_lenient "t" "o" "r" "p.txt" "hi" "m" "b"
    ⟨403, [], .nullJ⟩ (by decide) (by decide)

/-- A well-formed release-asset response body. -/
def sampleAssetResp : JValue :=
  .objJ [("url", .strJ "u"), ("id", .numJ 1), ("node_id", .strJ "n"),
         ("name", .strJ "a"), ("label", .nullJ), ("content_type", .strJ "ct"),
         ("state", .strJ "uploaded"), ("size", .numJ 2), ("download_count", .numJ 0),
         ("created_at", .strJ "c"), ("updated_at", .strJ "d"),
         ("browser_download_url", .strJ "b"), ("uploader", .nullJ)]

/-- C9: uploadReleaseAsset is a two-call sequence: fetch the release to
read its upload_url, then POST to that URL (template suffix stripped, the
asset name appended) with the base64-decoded content as the raw request
body (not JSON) and the caller-supplied content type as the Content-Type
header; when the first call fails the second is not attempted. -/
theorem claim9_upload_release_asset (pat owner repo name content ctype u : String)
    (rid : Int) (r : HttpResponse) (hr : ¬(200 ≤ r.status ∧ r.status < 300)) :
    uploadReleaseAsset pat owner repo rid name content ctype none
      (fun n => if n = 0 then ⟨200, [], .objJ [("upload_url", .strJ u)]⟩
                else ⟨201, [], sampleAssetResp⟩) [] =
    (.ok sampleAssetResp,
     [⟨"GET", repoUrl owner repo ("/releases/" ++ numStr rid), none, [], pat⟩,
      ⟨"POST", addParam (u.replace "\x7b?name,label\x7d" "") "name" name,
       some (.rawB (base64ToUtf8 content)), [("Content-Type", ctype)], pat⟩]) ∧
    uploadReleaseAsset pat owner repo rid name content ctype none (fun _ => r) [] =
    (.error (.ghError (createGitHubError r.status r.rheaders r.rbody)),
     [⟨"GET", repoUrl owner repo ("/releases/" ++ numStr rid), none, [], pat⟩]) := by
  constructor
  · rfl
  · simp [uploadReleaseAsset, githubRequest, net_bind_def, net_pure_def,
      Net.bind, Net.pure, throwNet, hr]

/-- Witness for C9 at concrete inputs. -/
theorem claim9_upload_release_asset_witness :
    uploadReleaseAsset "t" "o" "r" 5 "a.bin" "aGk=" "application/octet-stream" none
      (fun n => if n = 0 then
          ⟨200, [], .objJ [("upload_url", .strJ "https://uploads.github.com/x\x7b?name,label\x7d")]⟩
        else ⟨201, [], sampleAssetResp⟩) [] =
    (.ok sampleAssetResp,
     [⟨"GET", repoUrl "o" "r" ("/releases/" ++ numStr 5), none, [], "t"⟩,
      ⟨"POST", addParam ("https://uploads.github.com/x\x7b?name,label\x7d".replace "\x7b?name,label\x7d" "") "name" "a.bin",
       some (.rawB (base64ToUtf8 "aGk=")), [("Content-Type", "application/octet-stream")], "t"⟩]) ∧
    uploadReleaseAsset "t" "o" "r" 5 "a.bin" "aGk=" "application/octet-stream" none
      (fun _ => ⟨404, [], .nullJ⟩) [] =
    (.error (.ghError (createGitHubError 404 [] .nullJ)),
     [⟨"GET", repoUrl "o" "r" ("/releases/" ++ numStr 5), none, [], "t"⟩]) :=
  claim9_upload_release_asset "t" "o" "r" "a.bin" "aGk=" "application/octet-stream"
    "https://uploads.github.com/x\x7b?name,label\x7d" 5 ⟨404, [], .nullJ⟩ (by decide)

/-- A single-file contents response body with base64 content. -/
def fileBodyJ (nm p sh : String) (size : Int) (url ty c enc : String) : JValue :=
  .objJ [("name", .strJ nm), ("path", .strJ p), ("sha", .strJ sh),
         ("size", .numJ size), ("url", .strJ url), ("type", .strJ ty),
         ("content", .strJ c), ("encoding", .strJ enc)]

/-- C10: when the optional encoded flag of get_file_contents is omitted,
the operation behaves as if encoded were false: the returned record's
content is the base64-decoded UTF-8 text and its encoding is set to utf8,
although the schema's own description text states the default is true;
with encoded explicitly true the record is returned as received. -/
theorem claim10_get_file_contents_default (pat owner repo path nm p sh url ty c : String)
    (size : Int) (hc : c ≠ "") :
    (∃ pre post, GetFileContentsEncodedDescr = pre ++ "default = true" ++ post) ∧
    getFileContents ⟨pat, owner, repo, path, none, none⟩
      (fun _ => ⟨200, [], fileBodyJ nm p sh size url ty c "base64"⟩) [] =
    (.ok (.objJ [("name", .strJ nm), ("path", .strJ p), ("sha", .strJ sh),
                 ("size", .numJ size), ("url", .strJ url), ("type", .strJ ty),
                 ("content", .strJ (base64ToUtf8 c)), ("encoding", .strJ "utf8")]),
     [⟨"GET", repoUrl owner repo ("/contents/" ++ path), none, [], pat⟩]) ∧
    getFileContents ⟨pat, owner, repo, path, some true, none⟩
      (fun _ => ⟨200, [], fileBodyJ nm p sh size url ty c "base64"⟩) [] =
    (.ok (fileBodyJ nm p sh size url ty c "base64"),
     [⟨"GET", repoUrl owner repo ("/contents/" ++ path), none, [], pat⟩]) := by
  have hct : (c != "") = true := by simpa using hc
  refine ⟨⟨"Whether to return the content encoded in base64 (", ")", rfl⟩, ?_, ?_⟩ <;>
    simp [getFileContents, parseContent, githubRequest, net_bind_def, net_pure_def,
      Net.bind, Net.pure, throwNet, strTruthy, getStrOpt, jget, hct,
      GitHubFileContentFields, checkResp, orNullP, isStr, isNum, List.all,
      fileBodyJ, jsetV, jset, objStr, getStr, repoUrl]

/-- Witness for C10 at concrete inputs. -/
theorem claim10_get_file_contents_default_witness :
    getFileContents ⟨"t", "o", "r", "p.txt", none, none⟩
      (fun _ => ⟨200, [], fileBodyJ "p.txt" "p.txt" "s" 2 "u" "file" "aGk=" "base64"⟩) [] =
    (.ok (.objJ [("name", .strJ "p.txt"), ("path", .strJ "p.txt"), ("sha", .strJ "s"),
                 ("size", .numJ 2), ("url", .strJ "u"), ("type", .strJ "file"),
                 ("content", .strJ (base64ToUtf8 "aGk=")), ("encoding", .strJ "utf8")]),
     [⟨"GET", repoUrl "o" "r" ("/contents/" ++ "p.txt"), none, [], "t"⟩]) ∧
    getFileContents ⟨"t", "o", "r", "p.txt", some true, none⟩
      (fun _ => ⟨200, [], fileBodyJ "p.txt" "p.txt" "s" 2 "u" "file" "aGk=" "base64"⟩) [] =
    (.ok (fileBodyJ "p.txt" "p.txt" "s" 2 "u" "file" "aGk=" "base64"),
     [⟨"GET", repoUrl "o" "r" ("/contents/" ++ "p.txt"), none, [], "t"⟩]) := by
  have h := claim10_get_file_contents_default "t" "o" "r" "p.txt" "p.txt" "p.txt"
    "s" "u" "file" "aGk=" 2 (by decide)
  exact ⟨h.2.1, h.2.2⟩

/-- C6: the error classifier is a pure total function from status (plus
headers and body) to exactly one kind: 401 to authentication, 403 to
permission (unless rate-limited), 404 to resource-not-found, 409 to
conflict, 422 to validation carrying the body verbatim, 429 or a 403 with
the rate-limit-remaining header at 0 to rate-limit with the reset
timestamp computed from the reset header, and any other status to the
generic error carrying status and body. -/
theorem claim6_error_classifier (status : Nat) (headers : List (String × String))
    (body : JValue) :
    (status = 401 → createGitHubError status headers body = .authentication (messageOf body)) ∧
    (status = 403 → headerVal headers "x-ratelimit-remaining" ≠ some "0" →
      createGitHubError status headers body = .permission (messageOf body)) ∧
    (status = 404 → createGitHubError status headers body = .resourceNotFound (messageOf body)) ∧
    (status = 409 → createGitHubError status headers body = .conflict (messageOf body)) ∧
    (status = 422 → createGitHubError status headers body = .validation (messageOf body) (some body)) ∧
    (status = 429 → createGitHubError status headers body = .rateLimit (messageOf body) (resetFrom headers)) ∧
    (status = 403 → headerVal headers "x-ratelimit-remaining" = some "0" →
      createGitHubError status headers body = .rateLimit (messageOf body) (resetFrom headers)) ∧
    (status ≠ 401 → status ≠ 403 → status ≠ 404 → status ≠ 409 → status ≠ 422 → status ≠ 429 →
      createGitHubError status headers body = .generic status (messageOf body) body) := by
  refine ⟨?_, ?_, ?_, ?_, ?_, ?_, ?_, ?_⟩
  · intro h; subst h; simp [createGitHubError]
  · intro h hv; subst h; simp [createGitHubError, hv]
  · intro h; subst h; simp [createGitHubError]
  · intro h; subst h; simp [createGitHubError]
  · intro h; subst h; simp [createGitHubError]
  · intro h; subst h; simp [createGitHubError]
  · intro h hv; subst h; simp [createGitHubError, hv]
  · intro h1 h2 h3 h4 h5 h6; simp [createGitHubError, h1, h2, h3, h4, h5, h6]

/-- Witness for C6 at concrete statuses and headers. -/
theorem claim6_error_classifier_witness :
    createGitHubError 404 [] (.objJ [("message", .strJ "nope")]) =
      .resourceNotFound (messageOf (.objJ [("message", .strJ "nope")])) ∧
    createGitHubError 403 [("x-ratelimit-remaining", "0"), ("x-ratelimit-reset", "1700000000")]
      .nullJ =
      .rateLimit (messageOf .nullJ)
        (resetFrom [("x-ratelimit-remaining", "0"), ("x-ratelimit-reset", "1700000000")]) ∧
    createGitHubError 403 [] .nullJ = .permission (messageOf .nullJ) ∧
    createGitHubError 500 [] .nullJ = .generic 500 (messageOf .nullJ) .nullJ :=
  ⟨(claim6_error_classifier 404 [] (.objJ [("message", .strJ "nope")])).2.2.1 rfl,
   (claim6_error_classifier 403
      [("x-ratelimit-remaining", "0"), ("x-ratelimit-reset", "1700000000")] .nullJ).2.2.2.2.2.2.1
      rfl rfl,
   (claim6_error_classifier 403 [] .nullJ).2.1 rfl (by decide),
   (claim6_error_classifier 500 [] .nullJ).2.2.2.2.2.2.2
      (by decide) (by decide) (by decide) (by decide) (by decide) (by decide)⟩

/-- C7: every error kind is surfaced as one descriptive message prefixed
by its category label (validation, not-found, authentication, permission,
rate-limit with a Resets at timestamp, conflict, generic GitHub API
error), and a failing call is not retried: a get_issue invocation whose
single call fails yields exactly that one request in the trace and the
formatted message of its classified error as the result. -/
theorem claim7_error_messages (m : String) (rj : JValue) (resetAt : Nat) (st0 : Nat)
    (bj : JValue) :
    formatGitHubError (.validation m (some rj)) =
      "Validation Error: " ++ m ++ ("\nDetails: " ++ renderJson rj) ∧
    formatGitHubError (.validation m none) = "Validation Error: " ++ m ∧
    formatGitHubError (.resourceNotFound m) = "Not Found: " ++ m ∧
    formatGitHubError (.authentication m) = "Authentication Failed: " ++ m ∧
    formatGitHubError (.permission m) = "Permission Denied: " ++ m ∧
    formatGitHubError (.rateLimit m resetAt) =
      "Rate Limit Exceeded: " ++ m ++ "\nResets at: " ++ toISOString resetAt ∧
    formatGitHubError (.conflict m) = "Conflict: " ++ m ∧
    formatGitHubError (.generic st0 m bj) = "GitHub API Error: " ++ m ∧
    (∀ (pat owner repo : String) (n : Int) (st : Nat) (hs : List (String × String))
       (b : JValue) (env : Env), pat ≠ "" → ¬(200 ≤ st ∧ st < 300) →
      runTool env (fun _ => ⟨st, hs, b⟩) "get_issue"
        (some [("github_pat", .strJ pat), ("owner", .strJ owner), ("repo", .strJ repo),
               ("issue_number", .numJ n)]) =
      (.error (formatGitHubError (createGitHubError st hs b)),
       [⟨"GET", repoUrl owner repo ("/issues/" ++ numStr n), none, [], pat⟩])) := by
  refine ⟨rfl, by simp [formatGitHubError], rfl, rfl, rfl, rfl, rfl, rfl, ?_⟩
  intro pat owner repo n st hs b env hp h
  have hpt : (pat != "") = true := by simpa using hp
  simp [runTool, callTool, resolveArgsPat, jtruthy, jget, hpt, dispatch, registry,
    zodCheck, schemaIssues, withPat, fieldIssues, checkType, isStr, zodStrip,
    GetIssueSchema, runGetIssue, getIssue, githubRequest, h, net_bind_def, net_pure_def,
    Net.bind, Net.pure, wrapError, getStr, getNum, throwNet]

/-- Witness for C7: a concrete 404 get_issue invocation surfaces the
Not Found message after exactly one request. -/
theorem claim7_error_messages_witness :
    runTool ⟨none, none⟩ (fun _ => ⟨404, [], .objJ [("message", .strJ "Not Found")]⟩)
      "get_issue"
      (some [("github_pat", .strJ "t"), ("owner", .strJ "o"), ("repo", .strJ "r"),
             ("issue_number", .numJ 999)]) =
    (.error (formatGitHubError (createGitHubError 404 []
        (.objJ [("message", .strJ "Not Found")]))),
     [⟨"GET", repoUrl "o" "r" ("/issues/" ++ numStr 999), none, [], "t"⟩]) :=
  (claim7_error_messages "" .nullJ 0 0 .nullJ).2.2.2.2.2.2.2.2
    "t" "o" "r" 999 404 [] (.objJ [("message", .strJ "Not Found")]) ⟨none, none⟩
    (by decide) (by decide)

/-- String append acts as list append on the underlying character data. -/
theorem string_append_data (a b : String) : (a ++ b).data = a.data ++ b.data := rfl

/-- Setting one key leaves every other key unchanged. -/
theorem jget_jset_ne (rec : JObj) (k f : String) (v : JValue) (h : f ≠ k) :
    jget (jset rec k v) f = jget rec f := by
  induction rec with
  | nil => simp [jset, jget, Ne.symm h]
  | cons kv rest ih =>
      by_cases h0 : kv.1 = k
      · simp [jset, jget, h0, Ne.symm h]
      · by_cases h1 : kv.1 = f
        · simp [jset, jget, h0, h1, h]
        · simp [jset, jget, h0, h1, h, ih]

/-- Credential resolution either fails with the fixed missing-credential
error, keeps the record unchanged, or only sets the github_pat key. -/
theorem resolveArgsPat_shape (env : Env) (rec : JObj) :
    resolveArgsPat env rec = .error (.jsError "GitHub PAT is required") ∨
    resolveArgsPat env rec = .ok rec ∨
    ∃ v, resolveArgsPat env rec = .ok (jset rec "github_pat" (.strJ v)) := by
  unfold resolveArgsPat
  split_ifs with h1 h2 h3
  · exact .inr (.inl rfl)
  · exact .inr (.inr ⟨_, rfl⟩)
  · exact .inr (.inr ⟨_, rfl⟩)
  · exact .inl rfl

/-- A field with a non-empty issue list makes the whole issue list of the
schema non-empty. -/
theorem schemaIssues_ne_nil (s : ObjSchema) (rec : JObj) (fs : String × FieldType × Bool)
    (hm : fs ∈ s) (h : fieldIssues rec fs ≠ []) : schemaIssues s rec ≠ [] := by
  induction s with
  | nil => cases hm
  | cons a rest ih =>
      simp only [schemaIssues, List.map_cons, List.flatten_cons] at *
      rcases List.mem_cons.mp hm with rfl | hmem
      · intro hc
        exact h (List.append_eq_nil.mp hc).1
      · intro hc
        exact ih hmem (List.append_eq_nil.mp hc).2

/-- A non-empty issue list makes zodCheck fail. -/
theorem zodCheck_error_of (s : ObjSchema) (rec : JObj) (h : schemaIssues s rec ≠ []) :
    ∃ issues, zodCheck s rec = .error issues := by
  unfold zodCheck
  cases hs : schemaIssues s rec with
  | nil => exact absurd hs h
  | cons a l => exact ⟨a :: l, rfl⟩

/-- A required field missing from the record produces an issue. -/
theorem fieldIssues_required_missing (rec : JObj) (f : String) (ty : FieldType)
    (h : jget rec f = none) : fieldIssues rec (f, ty, true) ≠ [] := by
  simp [fieldIssues, h]

/-- An enumerated field holding a value outside the enumeration produces
an issue. -/
theorem fieldIssues_enum_bad (rec : JObj) (f : String) (allowed : List String)
    (req : Bool) (v : JValue) (hget : jget rec f = some v)
    (hbad : checkType (.enumOf allowed) v = false) :
    fieldIssues rec (f, .enumOf allowed, req) ≠ [] := by
  simp [fieldIssues, hget, hbad]

/-- A run whose credential resolution fails returns the missing-credential
message and issues no request. -/
theorem runTool_patError (env : Env) (oracle : Oracle) (name : String) (rec : JObj)
    (h : resolveArgsPat env rec = .error (.jsError "GitHub PAT is required")) :
    runTool env oracle name (some rec) = (.error "GitHub PAT is required", []) := by
  simp [runTool, callTool, h, throwNet, wrapError]

/-- A run whose input validation fails returns the Invalid input message
and issues no request. -/
theorem runTool_zodError (env : Env) (oracle : Oracle) (name : String) (rec rec1 : JObj)
    (t : ToolDef) (issues : List String)
    (hres : resolveArgsPat env rec = .ok rec1)
    (hfind : registry.find? (fun d => d.name == name) = some t)
    (hzod : zodCheck (withPat t.schema) rec1 = .error issues) :
    runTool env oracle name (some rec) =
      (.error ("Invalid input: " ++ renderJson (.arrJ (issues.map JValue.strJ))), []) := by
  simp [runTool, callTool, hres, dispatch, hfind, hzod, throwNet, wrapError]

/-- C3 counterexample: a create_branch record missing the required owner,
repo and github_pat fields, with no credential in the environment, yields
the missing-credential error, not InvalidArgument (credential resolution
runs before validation), though still without any network call. -/
theorem claim3_counterexample :
    runTool ⟨none, none⟩ (fun _ => ⟨200, [], .nullJ⟩) "create_branch"
      (some [("branch", .strJ "b")]) = (.error "GitHub PAT is required", []) ∧
    ∀ issues : List String,
      (runTool ⟨none, none⟩ (fun _ => ⟨200, [], .nullJ⟩) "create_branch"
        (some [("branch", .strJ "b")])).1 ≠ .error (wrapError (.zodError issues)) := by
  refine ⟨rfl, ?_⟩
  intro issues h
  have h1 : "GitHub PAT is required" = wrapError (.zodError issues) := by
    have h0 : (runTool ⟨none, none⟩ (fun _ => ⟨200, [], .nullJ⟩) "create_branch"
        (some [("branch", .strJ "b")])).1 = .error "GitHub PAT is required" := rfl
    rw [h0] at h
    exact (Except.error.injEq _ _).mp h
  have h2 := congrArg (fun s : String => s.data.head?) h1
  simp only [wrapError, string_append_data] at h2
  simp at h2

/-- C3 (amended): for every registered operation and every argument record
missing a required field of its input contract, no network call is made
and the operation implementation is not invoked; when credential
resolution fails the result is the missing-credential failure, and when a
credential is resolvable (resolution succeeds, whatever record it yields)
the result is the InvalidArgument (Invalid input) failure, because
credential resolution precedes validation. -/
theorem claim3_missing_required (name : String) (t : ToolDef)
    (hfind : registry.find? (fun d => d.name == name) = some t)
    (rec : JObj) (f : String) (ty : FieldType)
    (hmem : (f, ty, true) ∈ t.schema) (hnp : f ≠ "github_pat")
    (hmiss : jget rec f = none) (env : Env) (oracle : Oracle) :
    (runTool env oracle name (some rec)).2 = [] ∧
    (resolveArgsPat env rec = .error (.jsError "GitHub PAT is required") →
      (runTool env oracle name (some rec)).1 = .error "GitHub PAT is required") ∧
    (∀ rec1 : JObj, resolveArgsPat env rec = .ok rec1 →
      ∃ issues : List String, (runTool env oracle name (some rec)).1 =
        .error ("Invalid input: " ++ renderJson (.arrJ (issues.map JValue.strJ)))) := by
  have hmem1 : (f, ty, true) ∈ withPat t.schema := List.mem_append_left _ hmem
  have hinv : ∀ rec1 : JObj, resolveArgsPat env rec = .ok rec1 →
      ∃ issues : List String, (runTool env oracle name (some rec)).1 =
        .error ("Invalid input: " ++ renderJson (.arrJ (issues.map JValue.strJ))) := by
    intro rec1 hok1
    rcases resolveArgsPat_shape env rec with hpat | hok | ⟨v, hok⟩
    · rw [hpat] at hok1
      exact Except.noConfusion hok1
    · rw [hok] at hok1
      injection hok1 with h12
      subst h12
      obtain ⟨issues, hzod⟩ := zodCheck_error_of (withPat t.schema) rec
        (schemaIssues_ne_nil _ _ _ hmem1 (fieldIssues_required_missing rec f ty hmiss))
      rw [runTool_zodError env oracle name rec rec t issues hok hfind hzod]
      exact ⟨issues, rfl⟩
    · rw [hok] at hok1
      injection hok1 with h12
      subst h12
      have hmiss1 : jget (jset rec "github_pat" (.strJ v)) f = none := by
        rw [jget_jset_ne rec "github_pat" f (.strJ v) hnp]
        exact hmiss
      obtain ⟨issues, hzod⟩ := zodCheck_error_of (withPat t.schema) _
        (schemaIssues_ne_nil _ _ _ hmem1 (fieldIssues_required_missing _ f ty hmiss1))
      rw [runTool_zodError env oracle name rec _ t issues hok hfind hzod]
      exact ⟨issues, rfl⟩
  refine ⟨?_, ?_, hinv⟩
  · rcases resolveArgsPat_shape env rec with hpat | hok | ⟨v, hok⟩
    · rw [runTool_patError env oracle name rec hpat]
    · obtain ⟨issues, h⟩ := hinv rec hok
      obtain ⟨issues1, hzod⟩ := zodCheck_error_of (withPat t.schema) rec
        (schemaIssues_ne_nil _ _ _ hmem1 (fieldIssues_required_missing rec f ty hmiss))
      rw [runTool_zodError env oracle name rec rec t issues1 hok hfind hzod]
    · have hmiss1 : jget (jset rec "github_pat" (.strJ v)) f = none := by
        rw [jget_jset_ne rec "github_pat" f (.strJ v) hnp]
        exact hmiss
      obtain ⟨issues1, hzod⟩ := zodCheck_error_of (withPat t.schema) _
        (schemaIssues_ne_nil _ _ _ hmem1 (fieldIssues_required_missing _ f ty hmiss1))
      rw [runTool_zodError env oracle name rec _ t issues1 hok hfind hzod]
  · intro hpat
    rw [runTool_patError env oracle name rec hpat]

/-- Witness for C3 (amended): a push_files record missing its required
files field, carrying an explicit credential (so resolution succeeds and
keeps the record), yields the Invalid input failure and an empty trace. -/
theorem claim3_missing_required_witness :
    (runTool ⟨none, none⟩ (fun _ => ⟨200, [], .nullJ⟩) "push_files"
      (some [("github_pat", .strJ "t"), ("owner", .strJ "o"), ("repo", .strJ "r"),
             ("branch", .strJ "b"), ("message", .strJ "m")])).2 = [] ∧
    ∃ issues : List String, (runTool ⟨none, none⟩ (fun _ => ⟨200, [], .nullJ⟩) "push_files"
      (some [("github_pat", .strJ "t"), ("owner", .strJ "o"), ("repo", .strJ "r"),
             ("branch", .strJ "b"), ("message", .strJ "m")])).1 =
       .error ("Invalid input: " ++ renderJson (.arrJ (issues.map JValue.strJ))) :=
  have h := claim3_missing_required "push_files"
    ⟨"push_files", PushFilesSchema, runPushFiles⟩ rfl
    [("github_pat", .strJ "t"), ("owner", .strJ "o"), ("repo", .strJ "r"),
     ("branch", .strJ "b"), ("message", .strJ "m")]
    "files" .fileOpsT (by decide) (by decide) rfl ⟨none, none⟩
    (fun _ => ⟨200, [], .nullJ⟩)
  ⟨h.1, h.2.2
    [("github_pat", .strJ "t"), ("owner", .strJ "o"), ("repo", .strJ "r"),
     ("branch", .strJ "b"), ("message", .strJ "m")] rfl⟩

/-- C8 counterexample: a create_commit_status record whose state is
outside the enumeration, with no credential anywhere, yields the
missing-credential error rather than InvalidArgument (credential
resolution runs first), though the operation is still not invoked. -/
theorem claim8_counterexample :
    runTool ⟨none, none⟩ (fun _ => ⟨200, [], .nullJ⟩) "create_commit_status"
      (some [("owner", .strJ "o"), ("repo", .strJ "r"), ("sha", .strJ "s"),
             ("state", .strJ "bogus")]) = (.error "GitHub PAT is required", []) ∧
    ∀ issues : List String,
      (runTool ⟨none, none⟩ (fun _ => ⟨200, [], .nullJ⟩) "create_commit_status"
        (some [("owner", .strJ "o"), ("repo", .strJ "r"), ("sha", .strJ "s"),
               ("state", .strJ "bogus")])).1 ≠ .error (wrapError (.zodError issues)) := by
  refine ⟨rfl, ?_⟩
  intro issues h
  have h1 : "GitHub PAT is required" = wrapError (.zodError issues) := by
    have h0 : (runTool ⟨none, none⟩ (fun _ => ⟨200, [], .nullJ⟩) "create_commit_status"
        (some [("owner", .strJ "o"), ("repo", .strJ "r"), ("sha", .strJ "s"),
               ("state", .strJ "bogus")])).1 = .error "GitHub PAT is required" := rfl
    rw [h0] at h
    exact (Except.error.injEq _ _).mp h
  have h2 := congrArg (fun s : String => s.data.head?) h1
  simp only [wrapError, string_append_data] at h2
  simp at h2

/-- C8 (amended): for every registered operation whose input contract has
an enumerated field, an argument record supplying a value outside the
enumeration never invokes the operation implementation and issues no
network call; when credential resolution fails the result is the
missing-credential failure, and when a credential is resolvable
(resolution succeeds, whatever record it yields) the result is the
InvalidArgument (Invalid input) failure, because credential resolution
precedes validation. -/
theorem claim8_enum_reject (name : String) (t : ToolDef)
    (hfind : registry.find? (fun d => d.name == name) = some t)
    (rec : JObj) (f : String) (allowed : List String) (req : Bool) (v : JValue)
    (hmem : (f, .enumOf allowed, req) ∈ t.schema) (hnp : f ≠ "github_pat")
    (hget : jget rec f = some v) (hbad : checkType (.enumOf allowed) v = false)
    (env : Env) (oracle : Oracle) :
    (runTool env oracle name (some rec)).2 = [] ∧
    (resolveArgsPat env rec = .error (.jsError "GitHub PAT is required") →
      (runTool env oracle name (some rec)).1 = .error "GitHub PAT is required") ∧
    (∀ rec1 : JObj, resolveArgsPat env rec = .ok rec1 →
      ∃ issues : List String, (runTool env oracle name (some rec)).1 =
        .error ("Invalid input: " ++ renderJson (.arrJ (issues.map JValue.strJ)))) := by
  have hmem1 : (f, FieldType.enumOf allowed, req) ∈ withPat t.schema :=
    List.mem_append_left _ hmem
  have hinv : ∀ rec1 : JObj, resolveArgsPat env rec = .ok rec1 →
      ∃ issues : List String, (runTool env oracle name (some rec)).1 =
        .error ("Invalid input: " ++ renderJson (.arrJ (issues.map JValue.strJ))) := by
    intro rec1 hok1
    rcases resolveArgsPat_shape env rec with hpat | hok | ⟨w, hok⟩
    · rw [hpat] at hok1
      exact Except.noConfusion hok1
    · rw [hok] at hok1
      injection hok1 with h12
      subst h12
      obtain ⟨issues, hzod⟩ := zodCheck_error_of (withPat t.schema) rec
        (schemaIssues_ne_nil _ _ _ hmem1 (fieldIssues_enum_bad rec f allowed req v hget hbad))
      rw [runTool_zodError env oracle name rec rec t issues hok hfind hzod]
      exact ⟨issues, rfl⟩
    · rw [hok] at hok1
      injection hok1 with h12
      subst h12
      have hget1 : jget (jset rec "github_pat" (.strJ w)) f = some v := by
        rw [jget_jset_ne rec "github_pat" f (.strJ w) hnp]
        exact hget
      obtain ⟨issues, hzod⟩ := zodCheck_error_of (withPat t.schema) _
        (schemaIssues_ne_nil _ _ _ hmem1 (fieldIssues_enum_bad _ f allowed req v hget1 hbad))
      rw [runTool_zodError env oracle name rec _ t issues hok hfind hzod]
      exact ⟨issues, rfl⟩
  refine ⟨?_, ?_, hinv⟩
  · rcases resolveArgsPat_shape env rec with hpat | hok | ⟨w, hok⟩
    · rw [runTool_patError env oracle name rec hpat]
    · obtain ⟨issues1, hzod⟩ := zodCheck_error_of (withPat t.schema) rec
        (schemaIssues_ne_nil _ _ _ hmem1 (fieldIssues_enum_bad rec f allowed req v hget hbad))
      rw [runTool_zodError env oracle name rec rec t issues1 hok hfind hzod]
    · have hget1 : jget (jset rec "github_pat" (.strJ w)) f = some v := by
        rw [jget_jset_ne rec "github_pat" f (.strJ w) hnp]
        exact hget
      obtain ⟨issues1, hzod⟩ := zodCheck_error_of (withPat t.schema) _
        (schemaIssues_ne_nil _ _ _ hmem1 (fieldIssues_enum_bad _ f allowed req v hget1 hbad))
      rw [runTool_zodError env oracle name rec _ t issues1 hok hfind hzod]
  · intro hpat
    rw [runTool_patError env oracle name rec hpat]

/-- Witness for C8 (amended): list_issues with state outside its
enumeration and an explicit credential (so resolution succeeds and keeps
the record) yields the Invalid input failure with an empty trace. -/
theorem claim8_enum_reject_witness :
    (runTool ⟨none, none⟩ (fun _ => ⟨200, [], .nullJ⟩) "list_issues"
      (some [("github_pat", .strJ "t"), ("owner", .strJ "o"), ("repo", .strJ "r"),
             ("state", .strJ "reopened")])).2 = [] ∧
    ∃ issues : List String, (runTool ⟨none, none⟩ (fun _ => ⟨200, [], .nullJ⟩) "list_issues"
      (some [("github_pat", .strJ "t"), ("owner", .strJ "o"), ("repo", .strJ "r"),
             ("state", .strJ "reopened")])).1 =
       .error ("Invalid input: " ++ renderJson (.arrJ (issues.map JValue.strJ))) :=
  have h := claim8_enum_reject "list_issues"
    ⟨"list_issues", ListIssuesOptionsSchema, runListIssues⟩ rfl
    [("github_pat", .strJ "t"), ("owner", .strJ "o"), ("repo", .strJ "r"),
     ("state", .strJ "reopened")]
    "state" ["open", "closed", "all"] false (.strJ "reopened")
    (by decide) (by decide) rfl (by decide) ⟨none, none⟩ (fun _ => ⟨200, [], .nullJ⟩)
  ⟨h.1, h.2.2
    [("github_pat", .strJ "t"), ("owner", .strJ "o"), ("repo", .strJ "r"),
     ("state", .strJ "reopened")] rfl⟩

/-- C4 counterexample: with GITHUB_PAT set in the environment and an
explicit github_pat field present but empty, the issued request carries
the environment token, not the present explicit field, refuting the claim
that the explicit field is used whenever present. -/
theorem claim4_counterexample :
    jget [("github_pat", .strJ ""), ("owner", .strJ "o"), ("repo", .strJ "r"),
          ("issue_number", .numJ 1)] "github_pat" = some (.strJ "") ∧
    ((runTool ⟨some "envtok", none⟩ (fun _ => ⟨200, [], .nullJ⟩) "get_issue"
      (some [("github_pat", .strJ ""), ("owner", .strJ "o"), ("repo", .strJ "r"),
             ("issue_number", .numJ 1)])).2.map (fun r => r.pat)) = ["envtok"] := by
  exact ⟨rfl, rfl⟩

/-- C4 (amended): the credential of a tool invocation is resolved in this
order: a truthy (present, non-empty) explicit github_pat field is kept;
otherwise GITHUB_PAT and then GITHUB_PERSONAL_ACCESS_TOKEN is injected,
the first that is set and non-blank after trimming; otherwise the
invocation fails with the missing-credential error before any operation
runs or request is issued.  A truthy explicit credential is the one
carried by the issued request. -/
theorem claim4_credential_resolution (env : Env) (rec : JObj) :
    (jtruthy (jget rec "github_pat") = true → resolveArgsPat env rec = .ok rec) ∧
    (jtruthy (jget rec "github_pat") = false → envSet env.GITHUB_PAT = true →
      resolveArgsPat env rec = .ok (jset rec "github_pat" (.strJ (env.GITHUB_PAT.getD "")))) ∧
    (jtruthy (jget rec "github_pat") = false → envSet env.GITHUB_PAT = false →
      envSet env.GITHUB_PERSONAL_ACCESS_TOKEN = true →
      resolveArgsPat env rec =
        .ok (jset rec "github_pat" (.strJ (env.GITHUB_PERSONAL_ACCESS_TOKEN.getD "")))) ∧
    (jtruthy (jget rec "github_pat") = false → envSet env.GITHUB_PAT = false →
      envSet env.GITHUB_PERSONAL_ACCESS_TOKEN = false →
      ∀ (oracle : Oracle) (name : String),
        runTool env oracle name (some rec) = (.error "GitHub PAT is required", [])) ∧
    (∀ (pat owner repo : String) (n : Int) (oracle : Oracle), pat ≠ "" →
      ((runTool env oracle "get_issue"
        (some [("github_pat", .strJ pat), ("owner", .strJ owner), ("repo", .strJ repo),
               ("issue_number", .numJ n)])).2.map (fun r => r.pat)) = [pat]) := by
  refine ⟨?_, ?_, ?_, ?_, ?_⟩
  · intro h; simp [resolveArgsPat, h]
  · intro h h1; simp [resolveArgsPat, h, h1]
  · intro h h1 h2; simp [resolveArgsPat, h, h1, h2]
  · intro h h1 h2 oracle name
    apply runTool_patError
    simp [resolveArgsPat, h, h1, h2]
  · intro pat owner repo n oracle hp
    have hpt : (pat != "") = true := by simpa using hp
    by_cases hst : 200 ≤ (oracle 0).status ∧ (oracle 0).status < 300 <;>
      simp [runTool, callTool, resolveArgsPat, jtruthy, jget, hpt, dispatch, registry,
        zodCheck, schemaIssues, withPat, fieldIssues, checkType, isStr, zodStrip,
        GetIssueSchema, runGetIssue, getIssue, githubRequest, hst, net_bind_def,
        net_pure_def, Net.bind, Net.pure, wrapError, getStr, getNum, throwNet]

/-- Witness for C4 (amended) at concrete environments and records. -/
theorem claim4_credential_resolution_witness :
    resolveArgsPat ⟨some "envtok", none⟩ [] =
      .ok (jset [] "github_pat" (.strJ ((some "envtok").getD ""))) ∧
    (runTool ⟨none, none⟩ (fun _ => ⟨200, [], .nullJ⟩) "get_issue" (some []) =
      (.error "GitHub PAT is required", [])) ∧
    ((runTool ⟨none, none⟩ (fun _ => ⟨200, [], .nullJ⟩) "get_issue"
      (some [("github_pat", .strJ "tok"), ("owner", .strJ "o"), ("repo", .strJ "r"),
             ("issue_number", .numJ 7)])).2.map (fun r => r.pat)) = ["tok"] :=
  ⟨(claim4_credential_resolution ⟨some "envtok", none⟩ []).2.1 rfl rfl,
   (claim4_credential_resolution ⟨none, none⟩ []).2.2.2.1 rfl rfl rfl
     (fun _ => ⟨200, [], .nullJ⟩) "get_issue",
   (claim4_credential_resolution ⟨none, none⟩
      [("github_pat", .strJ "tok"), ("owner", .strJ "o"), ("repo", .strJ "r"),
       ("issue_number", .numJ 7)]).2.2.2.2 "tok" "o" "r" 7
      (fun _ => ⟨200, [], .nullJ⟩) (by decide)⟩
